import Mathlib

/-!
Verification development for the `air` infiltration module of the
SIMPLE building-simulation engine (sources: `src/eplus.rs`,
`src/resolvers.rs`, `src/model.rs`).

Modelling conventions:
* Rust `Float` values are modelled as real numbers (`ℝ`).
* A Rust `.expect(msg)` (a panic on missing data) is modelled as an
  `Except String` failure carrying the same message.
* A per-timestep computation unit (`Box<dyn Fn(&CurrentWeather, &mut
  SimulationState)>`) is defunctionalised into the inductive `Resolver`
  below, one constructor per closure shape occurring in the source, with
  `runResolver` as its interpreter.  A unit invocation returns the state
  as mutated so far together with an optional fault message (a panic
  inside the closure leaves the writes performed before the panic).
* `eprintln!` output is modelled as an explicitly returned list of
  warning lines.
* The shared simulation state is a flat list of reals indexed by the
  slot indices registered at construction time, exactly as in the
  source's `SimulationState` vector.
-/

namespace Air

noncomputable section

/-- Weather sample handed to every computation unit (the `CurrentWeather`
struct of the `weather` crate interface used by this module). -/
structure CurrentWeather where
  dry_bulb_temperature : Option ℝ
  wind_speed : Option ℝ

/-- Shelter classes of the `simple_model` crate, as matched on by
`resolve_wind_coefficient` in `src/resolvers.rs`. -/
inductive ShelterClass
  | NoObstructions
  | IsolatedRural
  | Urban
  | LargeLotUrban
  | SmallLotUrban
deriving DecidableEq

/-- The building attributes read by the coefficient resolvers: optional
stack coefficient, wind coefficient, storey count and shelter class. -/
structure Building where
  name : String
  stack_coefficient : Option ℝ
  wind_coefficient : Option ℝ
  n_storeys : Option ℕ
  shelter_class : Option ShelterClass

/-- The five-variant infiltration specification of `simple_model`,
matched on in `AirFlowModel::new` (`src/model.rs`). -/
inductive Infiltration
  | Constant (flow : ℝ)
  | Blast (flow : ℝ)
  | Doe2 (flow : ℝ)
  | DesignFlowRate (a b c d phi : ℝ)
  | EffectiveAirLeakageArea (area : ℝ)

/-- The space attributes this module reads and the state-slot indices it
registers.  `dry_bulb_temperature_index` is registered by the host
before construction; the two infiltration indices are assigned by
`AirFlowModel.new`. -/
structure Space where
  name : String
  infiltration : Option Infiltration
  building : Option Building
  dry_bulb_temperature_index : Option ℕ
  infiltration_volume_index : Option ℕ
  infiltration_temperature_index : Option ℕ

/-- The shared mutable state buffer: a flat vector of numeric slots. -/
abbrev SimulationState := List ℝ

/-- Reads the space's indoor dry-bulb temperature from the state buffer
through its registered index (`Space::dry_bulb_temperature` of
`simple_model`): `none` when the index is unregistered or out of
range. -/
def Space.dry_bulb_temperature (space : Space) (state : SimulationState) : Option ℝ :=
  match space.dry_bulb_temperature_index with
  | some i => state[i]?
  | none => none

/-- Writes the space's infiltration-temperature slot (a write through a
registered index; out-of-range or unregistered indices write nothing,
which is unreachable for spaces processed by `AirFlowModel.new`). -/
def Space.set_infiltration_temperature (space : Space) (state : SimulationState)
    (v : ℝ) : SimulationState :=
  match space.infiltration_temperature_index with
  | some i => state.set i v
  | none => state

/-- Writes the space's infiltration-volume slot. -/
def Space.set_infiltration_volume (space : Space) (state : SimulationState)
    (v : ℝ) : SimulationState :=
  match space.infiltration_volume_index with
  | some i => state.set i v
  | none => state

/-- Reads the space's infiltration-volume slot (used by the tests of the
source to observe `march` results). -/
def Space.infiltration_volume (space : Space) (state : SimulationState) : Option ℝ :=
  match space.infiltration_volume_index with
  | some i => state[i]?
  | none => none

/-- Reads the space's infiltration-temperature slot. -/
def Space.infiltration_temperature (space : Space) (state : SimulationState) : Option ℝ :=
  match space.infiltration_temperature_index with
  | some i => state[i]?
  | none => none

/-! ## `src/eplus.rs`: the physics functions -/

/-- EnergyPlus `ZoneInfiltration:DesignFlowRate` formula
(`design_flow_rate` in `src/eplus.rs`).  Arguments appear in the order
of the source: `(weather, space, state, design_rate, a, b, c, d)`.
Each `.expect` of the source becomes an `Except.error` with the same
message, raised in the source's evaluation order (space temperature,
then outdoor temperature, then wind speed). -/
def design_flow_rate (weather : CurrentWeather) (space : Space) (state : SimulationState)
    (design_rate a b c d : ℝ) : Except String ℝ := do
  let t_space ← match space.dry_bulb_temperature state with
    | some v => Except.ok v
    | none => Except.error "Space does not have Dry Bulb temperature"
  let t_out ← match weather.dry_bulb_temperature with
    | some v => Except.ok v
    | none => Except.error "Weather given did not have Dry Bulb temperature"
  let wind_speed ← match weather.wind_speed with
    | some v => Except.ok v
    | none => Except.error "Weather does not have Wind Speed"
  Except.ok (design_rate * (a + b * |t_space - t_out| + c * wind_speed
    + d * wind_speed * wind_speed))

/-- BLAST default coefficients (`blast_design_flow_rate`). -/
def blast_design_flow_rate (weather : CurrentWeather) (space : Space)
    (state : SimulationState) (design_rate : ℝ) : Except String ℝ :=
  design_flow_rate weather space state design_rate 0.606 0.03636 0.1177 0

/-- DOE-2 default coefficients (`doe2_design_flow_rate`). -/
def doe2_design_flow_rate (weather : CurrentWeather) (space : Space)
    (state : SimulationState) (design_rate : ℝ) : Except String ℝ :=
  design_flow_rate weather space state design_rate 0 0 0.224 0

/-- Effective-leakage-area formula (`effective_leakage_area` in
`src/eplus.rs`).  The arguments after `(weather, space, state)` are, in
the order of the source, the leakage area `al`, the wind coefficient
`cw` and the stack coefficient `cs`; a missing wind speed is replaced
by `0`, while missing temperatures fail. -/
def effective_leakage_area (weather : CurrentWeather) (space : Space)
    (state : SimulationState) (area cw cs : ℝ) : Except String ℝ := do
  let outdoor_temp ← match weather.dry_bulb_temperature with
    | some v => Except.ok v
    | none => Except.error "Weather provided does not include DryBulb Temperature"
  let space_temp ← match space.dry_bulb_temperature state with
    | some v => Except.ok v
    | none => Except.error "Space has no Dry-bulb temperature"
  let delta_t := |outdoor_temp - space_temp|
  let ws := match weather.wind_speed with
    | some v => v
    | none => 0
  Except.ok ((area / 1000) * Real.sqrt (cs * delta_t + cw * ws * ws))

/-! ## `src/resolvers.rs`: building the per-space computation units

The source returns boxed closures of type
`Box<dyn Fn(&CurrentWeather, &mut SimulationState)>`.  Exactly six
closure shapes occur (five resolver kinds plus the no-op bound for
spaces without an infiltration specification), so the closure type is
defunctionalised into the inductive `Resolver`, interpreted by
`runResolver`. -/

/-- Defunctionalised computation unit: one constructor per closure shape
built in `src/resolvers.rs` and `src/model.rs`, carrying exactly the
data the corresponding closure captures. -/
inductive Resolver
  | constant (space : Space) (v : ℝ)
  | blast (space : Space) (v : ℝ)
  | doe2 (space : Space) (v : ℝ)
  | designFlowRate (space : Space) (a b c d v : ℝ)
  | effectiveAirLeakage (space : Space) (al cw cs : ℝ)
  | noop

/-- The space captured by a unit (`none` for the no-op unit). -/
def Resolver.space : Resolver → Option Space
  | .constant sp _ => some sp
  | .blast sp _ => some sp
  | .doe2 sp _ => some sp
  | .designFlowRate sp _ _ _ _ _ => some sp
  | .effectiveAirLeakage sp _ _ _ => some sp
  | .noop => none

/-- Interpreter for the defunctionalised units: the body of each closure
of the source, step by step.  The result pairs the state after all
writes performed up to the first fault with an optional fault message
(the panic message of the corresponding `.expect`). -/
def runResolver : Resolver → CurrentWeather → SimulationState →
    SimulationState × Option String
  | .noop, _, state => (state, none)
  | .constant space v, weather, state =>
    match weather.dry_bulb_temperature with
    | none => (state, some "Weather does not have dry bulb temperature")
    | some outdoor_temperature =>
      let state := space.set_infiltration_temperature state outdoor_temperature
      (space.set_infiltration_volume state v, none)
  | .blast space v, weather, state =>
    match weather.dry_bulb_temperature with
    | none => (state, some "Weather does not have dry bulb temperature")
    | some outdoor_temperature =>
      let state := space.set_infiltration_temperature state outdoor_temperature
      match blast_design_flow_rate weather space state v with
      | .error e => (state, some e)
      | .ok volume => (space.set_infiltration_volume state volume, none)
  | .doe2 space v, weather, state =>
    match weather.dry_bulb_temperature with
    | none => (state, some "Weather does not have dry bulb temperature")
    | some outdoor_temperature =>
      let state := space.set_infiltration_temperature state outdoor_temperature
      match doe2_design_flow_rate weather space state v with
      | .error e => (state, some e)
      | .ok volume => (space.set_infiltration_volume state volume, none)
  | .designFlowRate space a b c d v, weather, state =>
    match weather.dry_bulb_temperature with
    | none => (state, some "Weather does not have dry bulb temperature")
    | some outdoor_temperature =>
      let state := space.set_infiltration_temperature state outdoor_temperature
      match design_flow_rate weather space state a b c d v with
      | .error e => (state, some e)
      | .ok volume => (space.set_infiltration_volume state volume, none)
  | .effectiveAirLeakage space al cw cs, weather, state =>
    match weather.dry_bulb_temperature with
    | none => (state, some "Weather does not have dry bulb temperature")
    | some outdoor_temperature =>
      let state := space.set_infiltration_temperature state outdoor_temperature
      match effective_leakage_area weather space state al cw cs with
      | .error e => (state, some e)
      | .ok volume => (space.set_infiltration_volume state volume, none)

/-- Build-time constructor `constant_resolver`. -/
def constant_resolver (space : Space) (v : ℝ) : Except String Resolver :=
  Except.ok (.constant space v)

/-- Build-time constructor `blast_resolver`. -/
def blast_resolver (space : Space) (v : ℝ) : Except String Resolver :=
  Except.ok (.blast space v)

/-- Build-time constructor `doe2_resolver`. -/
def doe2_resolver (space : Space) (v : ℝ) : Except String Resolver :=
  Except.ok (.doe2 space v)

/-- Build-time constructor `design_flow_rate_resolver`.  Note that the
closure it builds calls `design_flow_rate(weather, space, state, a, b,
c, d, v)`, so the source positions `a` as the design rate and `(b, c,
d, v)` as the four formula coefficients; the embedding preserves this
argument passing verbatim (see `runResolver`). -/
def design_flow_rate_resolver (space : Space) (a b c d v : ℝ) : Except String Resolver :=
  Except.ok (.designFlowRate space a b c d v)

/-- Stack-coefficient resolution (`resolve_stack_coefficient`).  The
source's `eprintln!` warning is modelled as the second component of the
result: the list of warning lines emitted (empty or a singleton). -/
def resolve_stack_coefficient (space : Space) (building : Building) :
    Except String (ℝ × List String) :=
  match building.stack_coefficient with
  | some v => Except.ok (v, [])
  | none =>
    match building.n_storeys with
    | some storeys =>
      if storeys = 0 then
        Except.error ("Building \x27" ++ building.name ++ "\x27 has 0 storeys")
      else if storeys = 1 then Except.ok (0.000145, [])
      else if storeys = 2 then Except.ok (0.000290, [])
      else if storeys = 3 then Except.ok (0.000435, [])
      else
        Except.ok (0.000435,
          ["The Infiltration::EffectiveAirLeakageArea object (used in Space \x27"
            ++ space.name
            ++ "\x27) is appropriate for Building up to about 3 storeys... Building is "
            ++ toString storeys ++ " storeys"])
    | none =>
      Except.error ("Space \x27" ++ space.name
        ++ "\x27 has been assigned an Infiltration::EffectiveAirLeakageArea but its associated building has not enough data... Please assign values to the Building\x27s stack_coefficient or n_storey fields")

/-- Wind-coefficient resolution (`resolve_wind_coefficient`). -/
def resolve_wind_coefficient (space : Space) (building : Building) :
    Except String ℝ :=
  match building.wind_coefficient with
  | some v => Except.ok v
  | none =>
    match building.n_storeys with
    | none =>
      Except.error ("Building \x27" ++ building.name
        ++ "\x27, associated with Space \x27" ++ space.name
        ++ "\x27 has not been assigned an n_storeys field... Cannot resolve Wind Coefficient for EffectiveAirLeakageArea infiltration")
    | some n_storeys =>
      match building.shelter_class with
      | some shelter =>
        Except.ok
          (match shelter with
          | .NoObstructions =>
            if n_storeys = 1 then 0.000319
            else if n_storeys = 2 then 0.000420
            else 0.000494
          | .IsolatedRural =>
            if n_storeys = 1 then 0.000246
            else if n_storeys = 2 then 0.000325
            else 0.000382
          | .Urban =>
            if n_storeys = 1 then 0.000172
            else if n_storeys = 2 then 0.000231
            else 0.000271
          | .LargeLotUrban =>
            if n_storeys = 1 then 0.000104
            else if n_storeys = 2 then 0.000137
            else 0.000161
          | .SmallLotUrban =>
            if n_storeys = 1 then 0.000032
            else if n_storeys = 2 then 0.000042
            else 0.000049)
      | none =>
        Except.error ("Space \x27" ++ space.name
          ++ "\x27 has been assigned an Infiltration::EffectiveAirLeakageArea but its associated building has not enough data... Please assign values to the Building\x27s wind_coefficient or shelter_class and n_storeys fields")

/-- Build-time constructor `effective_air_leakage_resolver`: requires an
owning building, resolves the stack coefficient and then the wind
coefficient (in this order, so a stack-side error takes precedence),
and captures them in the unit.  The stack resolver's warning lines go
to stderr and are discarded here, as in the source. -/
def effective_air_leakage_resolver (space : Space) (al : ℝ) : Except String Resolver :=
  match space.building with
  | some building => do
    let cs ← resolve_stack_coefficient space building
    let cw ← resolve_wind_coefficient space building
    Except.ok (.effectiveAirLeakage space al cw cs.1)
  | none =>
    Except.error ("Space \x27" ++ space.name
      ++ "\x27 has been assigned an Infiltration::EffectiveAirLeakageArea but no building... Assign a Building to it.")

/-! ## `src/model.rs`: the `AirFlowModel` plugin -/

/-- Tags of the state slots this module registers or reads
(`SimulationStateElement` of `simple_model`, restricted to the variants
used here). -/
inductive SimulationStateElement
  | SpaceDryBulbTemperature (i : ℕ)
  | SpaceInfiltrationVolume (i : ℕ)
  | SpaceInfiltrationTemperature (i : ℕ)

/-- The construction-time state registry: a sequence of (tag, initial
value) pairs; `push` appends and returns the new slot's index. -/
abbrev SimulationStateHeader := List (SimulationStateElement × ℝ)

/-- Registers a new slot and returns its stable index (the position at
which it was appended). -/
def SimulationStateHeader.push (header : SimulationStateHeader)
    (e : SimulationStateElement) (v : ℝ) : SimulationStateHeader × ℕ :=
  (header ++ [(e, v)], header.length)

/-- Finalises the registry into the initial state buffer
(`take_values`). -/
def SimulationStateHeader.take_values (header : SimulationStateHeader) : SimulationState :=
  header.map Prod.snd

/-- The host model snapshot: an ordered sequence of spaces. -/
structure SimpleModel where
  spaces : List Space

/-- The constructed plugin: one computation unit per space, in space
order. -/
structure AirFlowModel where
  infiltration_calcs : List Resolver

/-- One iteration of the construction loop of `AirFlowModel::new`:
registers the two output slots (initial value `0.0` each), records the
returned indices on the space, and builds the space's computation unit
from its infiltration variant (the no-op unit when none is
configured). -/
def processSpace (i : ℕ) (header : SimulationStateHeader) (space : Space) :
    Except String (Resolver × Space × SimulationStateHeader) :=
  let p1 := header.push (.SpaceInfiltrationVolume i) 0
  let space : Space := { space with infiltration_volume_index := some p1.2 }
  let p2 := p1.1.push (.SpaceInfiltrationTemperature i) 0
  let space : Space := { space with infiltration_temperature_index := some p2.2 }
  match space.infiltration with
  | some infiltration => do
    let infiltration_fn ← match infiltration with
      | .Constant flow => constant_resolver space flow
      | .Blast flow => blast_resolver space flow
      | .Doe2 flow => doe2_resolver space flow
      | .DesignFlowRate a b c d phi => design_flow_rate_resolver space a b c d phi
      | .EffectiveAirLeakageArea area => effective_air_leakage_resolver space area
    Except.ok (infiltration_fn, space, p2.1)
  | none => Except.ok (.noop, space, p2.1)

/-- The construction loop over the space sequence, threading the
enumeration counter and the state registry; the first failing space
aborts construction. -/
def buildUnits : List Space → ℕ → SimulationStateHeader →
    Except String (List Resolver × List Space × SimulationStateHeader)
  | [], _, header => Except.ok ([], [], header)
  | space :: rest, i, header => do
    let r ← processSpace i header space
    let rs ← buildUnits rest (i + 1) r.2.2
    Except.ok (r.1 :: rs.1, r.2.1 :: rs.2.1, rs.2.2)

/-- `AirFlowModel::new`: builds the unit vector; besides the model it
returns the spaces with their newly-recorded slot indices (the source
mutates the shared spaces in place) and the extended state registry. -/
def AirFlowModel.new (model : SimpleModel) (state : SimulationStateHeader) :
    Except String (AirFlowModel × List Space × SimulationStateHeader) := do
  let r ← buildUnits model.spaces 0 state
  Except.ok ({ infiltration_calcs := r.1 }, r.2.1, r.2.2)

/-- Calendar date handed to `march`; only used to sample the weather
source. -/
structure Date where
  month : ℕ
  day : ℕ
  hour : ℝ

/-- A weather source (`Weather` trait): `get_weather_data` per date. -/
abbrev Weather := Date → CurrentWeather

/-- The per-timestep loop body of `AirFlowModel::march`: invokes the
units in space order; a fault (panic) stops the loop, leaving the
writes performed so far. -/
def runUnits : List Resolver → CurrentWeather → SimulationState →
    SimulationState × Option String
  | [], _, state => (state, none)
  | r :: rs, weather, state =>
    match runResolver r weather state with
    | (state, none) => runUnits rs weather state
    | (state, some e) => (state, some e)

/-- `AirFlowModel::march`: samples the weather source once for the given
date and invokes every computation unit with that sample. -/
def AirFlowModel.march (m : AirFlowModel) (date : Date) (weather : Weather)
    (state : SimulationState) : SimulationState × Option String :=
  runUnits m.infiltration_calcs (weather date) state

/-- Iterated `march` invocations: each step feeds the (possibly
partially written) state of the previous one, with an arbitrary date
and weather source per step. -/
def marches (m : AirFlowModel) : List (Date × Weather) → SimulationState → SimulationState
  | [], st => st
  | (d, w) :: rest, st => marches m rest (m.march d w st).1

/-- The two slot indices `AirFlowModel.new` records on a space when the
registry length is `base` at the moment the space is processed. -/
def withIndices (sp : Space) (base : ℕ) : Space :=
  { sp with infiltration_volume_index := some base,
            infiltration_temperature_index := some (base + 1) }

/-! ## Concrete exemplars used by the witness theorems -/

/-- A weather sample with both fields available: 2 °C outdoors, 3.35 m/s
wind (the summer condition of the source's tests). -/
def wSummer : CurrentWeather := ⟨some 2, some 3.35⟩

/-- A weather sample with temperature but no wind speed. -/
def wNoWind : CurrentWeather := ⟨some 2, none⟩

/-- A space whose dry-bulb temperature is registered at slot 0, with a
Blast infiltration specification. -/
def spBlastDemo : Space := ⟨"some space", some (.Blast 1), none, some 0, none, none⟩

/-- The same space after construction recorded slot indices 1 and 2. -/
def spBlastDemoIx : Space := ⟨"some space", some (.Blast 1), none, some 0, some 1, some 2⟩

/-- A space with no infiltration specification. -/
def spEmptyDemo : Space := ⟨"empty space", none, none, some 0, none, none⟩

/-- The indexed version of `spEmptyDemo` produced by construction. -/
def spEmptyDemoIx : Space := ⟨"empty space", none, none, some 0, some 1, some 2⟩

/-- A state buffer holding only the dry-bulb temperature slot. -/
def stDemo : SimulationState := [2]

/-- A state registry holding one pre-registered dry-bulb slot. -/
def hDemo : SimulationStateHeader := [(.SpaceDryBulbTemperature 0, 22)]

/-- The registry after `AirFlowModel.new` processed one space. -/
def h1Demo : SimulationStateHeader :=
  [(.SpaceDryBulbTemperature 0, 22), (.SpaceInfiltrationVolume 0, 0),
    (.SpaceInfiltrationTemperature 0, 0)]

/-- A building with one storey, no-obstructions shelter and no direct
coefficients. -/
def b1Demo : Building := ⟨"some building", none, none, some 1, some .NoObstructions⟩

/-- A weather sample with 1 °C outdoors and zero wind speed. -/
def wzDemo : CurrentWeather := ⟨some 1, some 0⟩

/-- A nameless-ish space reading its temperature from slot 0. -/
def spZero : Space := ⟨"s", none, none, some 0, none, none⟩

/-- A one-slot state buffer holding temperature 0. -/
def stZero : SimulationState := [0]

/-- A building with wind coefficient and shelter class missing. -/
def bNoShelter : Building := ⟨"bldg77", some 0.0001, none, some 1, none⟩

/-- A lone space with Effective-Leakage-Area infiltration and no
building. -/
def spLonely : Space := ⟨"lonely", some (.EffectiveAirLeakageArea 500), none, some 0, none, none⟩

/-- A building carrying no data at all. -/
def bNoData : Building := ⟨"bld", none, none, none, none⟩

/-- An Effective-Leakage-Area space owned by `bNoData`: its own
resolution fails with a missing-data message. -/
def spAAA : Space := ⟨"AAA", some (.EffectiveAirLeakageArea 1), some bNoData, some 0, none, none⟩

/-- An Effective-Leakage-Area space with no owning building, listed
after `spAAA`. -/
def spZone9 : Space := ⟨"zone9", some (.EffectiveAirLeakageArea 1), none, some 0, none, none⟩

/-- A one-space model with no infiltration specification. -/
def mEmptyDemo : SimpleModel := ⟨[spEmptyDemo]⟩

/-- A one-space model with Blast infiltration. -/
def mBlastDemo : SimpleModel := ⟨[spBlastDemo]⟩

/-- The unit vector constructed for `mBlastDemo`. -/
def afmBlastDemo : AirFlowModel := ⟨[.blast spBlastDemoIx 1]⟩

/-- A demo date. -/
def dateDemo : Date := ⟨1, 1, 10⟩

/-! ## Helper lemmas about the physics functions -/

/-- Evaluation of `design_flow_rate` when all three inputs are
available. -/
lemma design_flow_rate_ok {weather : CurrentWeather} {space : Space}
    {state : SimulationState} {t_in t_out ws : ℝ} (design_rate a b c d : ℝ)
    (hs : space.dry_bulb_temperature state = some t_in)
    (ho : weather.dry_bulb_temperature = some t_out)
    (hw : weather.wind_speed = some ws) :
    design_flow_rate weather space state design_rate a b c d =
      Except.ok (design_rate * (a + b * |t_in - t_out| + c * ws + d * ws * ws)) := by
  simp [design_flow_rate, hs, ho, hw, Bind.bind, Except.bind]

/-- `design_flow_rate` fails whenever one of its three data inputs is
unavailable. -/
lemma design_flow_rate_err {weather : CurrentWeather} {space : Space}
    {state : SimulationState} (design_rate a b c d : ℝ)
    (h : weather.dry_bulb_temperature = none ∨ weather.wind_speed = none ∨
      space.dry_bulb_temperature state = none) :
    ∃ e, design_flow_rate weather space state design_rate a b c d = Except.error e := by
  cases hs : space.dry_bulb_temperature state <;>
    cases ho : weather.dry_bulb_temperature <;>
    cases hw : weather.wind_speed <;>
    simp_all [design_flow_rate, Bind.bind, Except.bind]

/-- Evaluation of `effective_leakage_area` when both temperatures are
available; the wind speed contributes through `Option.getD 0`. -/
lemma effective_leakage_area_ok {weather : CurrentWeather} {space : Space}
    {state : SimulationState} {t_out t_in : ℝ} (area cw cs : ℝ)
    (ho : weather.dry_bulb_temperature = some t_out)
    (hs : space.dry_bulb_temperature state = some t_in) :
    effective_leakage_area weather space state area cw cs =
      Except.ok ((area / 1000) * Real.sqrt (cs * |t_out - t_in|
        + cw * (weather.wind_speed.getD 0) * (weather.wind_speed.getD 0))) := by
  cases hw : weather.wind_speed <;>
    simp [effective_leakage_area, ho, hs, hw, Bind.bind, Except.bind]

/-! ## C1 -/

/-- C1: whenever the space's indoor dry-bulb temperature, the outdoor
dry-bulb temperature and the wind speed are all available,
`design_flow_rate` returns
`design_rate * (a + b*|t_in - t_out| + c*ws + d*ws^2)`; when any of the
three is unavailable it fails with a missing-data error. -/
theorem design_flow_rate_correct (weather : CurrentWeather) (space : Space)
    (state : SimulationState) (design_rate a b c d : ℝ) :
    (∀ t_in t_out ws : ℝ,
      space.dry_bulb_temperature state = some t_in →
      weather.dry_bulb_temperature = some t_out →
      weather.wind_speed = some ws →
      design_flow_rate weather space state design_rate a b c d =
        Except.ok (design_rate * (a + b * |t_in - t_out| + c * ws + d * ws * ws))) ∧
    (weather.dry_bulb_temperature = none ∨ weather.wind_speed = none ∨
      space.dry_bulb_temperature state = none →
      ∃ e, design_flow_rate weather space state design_rate a b c d = Except.error e) := by
  constructor
  · intro t_in t_out ws hs ho hw
    exact design_flow_rate_ok design_rate a b c d hs ho hw
  · intro h
    exact design_flow_rate_err design_rate a b c d h

/-- Witness for C1: the formula branch evaluated on the summer test
data of the source. -/
theorem design_flow_rate_correct_witness :
    design_flow_rate wSummer spBlastDemo stDemo 1 0.606 0.03636 0.1177 0 =
      Except.ok (1 * (0.606 + 0.03636 * |(2 : ℝ) - 2| + 0.1177 * 3.35
        + 0 * 3.35 * 3.35)) :=
  (design_flow_rate_correct wSummer spBlastDemo stDemo 1 0.606 0.03636 0.1177 0).1
    2 2 3.35 rfl rfl rfl

/-! ## C5 -/

/-- C5: `blast_design_flow_rate` and `doe2_design_flow_rate` are
`design_flow_rate` with coefficients (0.606, 0.03636, 0.1177, 0) and
(0, 0, 0.224, 0) respectively; at 0 temperature difference and 3.35 m/s
wind their flows are within 0.02 relative tolerance of
`design_rate * 1.0` and `design_rate * 0.75`, and at 40 difference and
6 m/s wind within 0.02 relative tolerance of `design_rate * 2.75` and
`design_rate * 1.34`. -/
theorem blast_doe2_defaults :
    (∀ (weather : CurrentWeather) (space : Space) (state : SimulationState)
      (design_rate : ℝ),
      blast_design_flow_rate weather space state design_rate =
        design_flow_rate weather space state design_rate 0.606 0.03636 0.1177 0 ∧
      doe2_design_flow_rate weather space state design_rate =
        design_flow_rate weather space state design_rate 0 0 0.224 0) ∧
    (∀ (weather : CurrentWeather) (space : Space) (state : SimulationState)
      (design_rate t : ℝ),
      space.dry_bulb_temperature state = some t →
      weather.dry_bulb_temperature = some t →
      weather.wind_speed = some 3.35 →
      (∀ φ, blast_design_flow_rate weather space state design_rate = Except.ok φ →
        |φ - design_rate * 1| ≤ 0.02 * |design_rate * 1|) ∧
      (∀ φ, doe2_design_flow_rate weather space state design_rate = Except.ok φ →
        |φ - design_rate * 0.75| ≤ 0.02 * |design_rate * 0.75|)) ∧
    (∀ (weather : CurrentWeather) (space : Space) (state : SimulationState)
      (design_rate t_in t_out : ℝ),
      space.dry_bulb_temperature state = some t_in →
      weather.dry_bulb_temperature = some t_out →
      |t_in - t_out| = 40 →
      weather.wind_speed = some 6 →
      (∀ φ, blast_design_flow_rate weather space state design_rate = Except.ok φ →
        |φ - design_rate * 2.75| ≤ 0.02 * |design_rate * 2.75|) ∧
      (∀ φ, doe2_design_flow_rate weather space state design_rate = Except.ok φ →
        |φ - design_rate * 1.34| ≤ 0.02 * |design_rate * 1.34|)) := by
  refine ⟨fun _ _ _ _ => ⟨rfl, rfl⟩, ?_, ?_⟩
  · intro weather space state design_rate t hs ho hw
    constructor
    · intro φ hφ
      rw [blast_design_flow_rate, design_flow_rate_ok design_rate 0.606 0.03636 0.1177 0 hs ho hw] at hφ
      obtain rfl : (design_rate * (0.606 + 0.03636 * |t - t| + 0.1177 * 3.35
          + 0 * 3.35 * 3.35)) = φ := by
        exact (Except.ok.injEq _ _).mp hφ
      have h1 : design_rate * (0.606 + 0.03636 * |t - t| + 0.1177 * 3.35
          + 0 * 3.35 * 3.35) - design_rate * 1 = design_rate * 0.000295 := by
        rw [sub_self, abs_zero]; ring
      rw [h1, abs_mul, abs_mul,
        abs_of_nonneg (show (0 : ℝ) ≤ 0.000295 by norm_num),
        abs_of_nonneg (show (0 : ℝ) ≤ 1 by norm_num)]
      nlinarith [abs_nonneg design_rate]
    · intro φ hφ
      rw [doe2_design_flow_rate, design_flow_rate_ok design_rate 0 0 0.224 0 hs ho hw] at hφ
      obtain rfl : (design_rate * (0 + 0 * |t - t| + 0.224 * 3.35
          + 0 * 3.35 * 3.35)) = φ := (Except.ok.injEq _ _).mp hφ
      have h1 : design_rate * (0 + 0 * |t - t| + 0.224 * 3.35 + 0 * 3.35 * 3.35)
          - design_rate * 0.75 = design_rate * 0.0004 := by
        rw [sub_self, abs_zero]; ring
      rw [h1, abs_mul, abs_mul,
        abs_of_nonneg (show (0 : ℝ) ≤ 0.0004 by norm_num),
        abs_of_nonneg (show (0 : ℝ) ≤ 0.75 by norm_num)]
      nlinarith [abs_nonneg design_rate]
  · intro weather space state design_rate t_in t_out hs ho hΔ hw
    constructor
    · intro φ hφ
      rw [blast_design_flow_rate, design_flow_rate_ok design_rate 0.606 0.03636 0.1177 0 hs ho hw] at hφ
      obtain rfl : (design_rate * (0.606 + 0.03636 * |t_in - t_out| + 0.1177 * 6
          + 0 * 6 * 6)) = φ := (Except.ok.injEq _ _).mp hφ
      have h1 : design_rate * (0.606 + 0.03636 * |t_in - t_out| + 0.1177 * 6
          + 0 * 6 * 6) - design_rate * 2.75 = design_rate * 0.0166 := by
        rw [hΔ]; ring
      rw [h1, abs_mul, abs_mul,
        abs_of_nonneg (show (0 : ℝ) ≤ 0.0166 by norm_num),
        abs_of_nonneg (show (0 : ℝ) ≤ 2.75 by norm_num)]
      nlinarith [abs_nonneg design_rate]
    · intro φ hφ
      rw [doe2_design_flow_rate, design_flow_rate_ok design_rate 0 0 0.224 0 hs ho hw] at hφ
      obtain rfl : (design_rate * (0 + 0 * |t_in - t_out| + 0.224 * 6
          + 0 * 6 * 6)) = φ := (Except.ok.injEq _ _).mp hφ
      have h1 : design_rate * (0 + 0 * |t_in - t_out| + 0.224 * 6 + 0 * 6 * 6)
          - design_rate * 1.34 = design_rate * 0.004 := by ring
      rw [h1, abs_mul, abs_mul,
        abs_of_nonneg (show (0 : ℝ) ≤ 0.004 by norm_num),
        abs_of_nonneg (show (0 : ℝ) ≤ 1.34 by norm_num)]
      nlinarith [abs_nonneg design_rate]

/-- Witness for C5: the summer tolerance branch evaluated on the
source's test data. -/
theorem blast_doe2_defaults_witness :
    ∀ φ, blast_design_flow_rate wSummer spBlastDemo stDemo 1 = Except.ok φ →
      |φ - 1 * 1| ≤ 0.02 * |(1 : ℝ) * 1| :=
  ((blast_doe2_defaults.2.1 wSummer spBlastDemo stDemo 1 2 rfl rfl rfl).1)

/-! ## C2 -/

/-- Counterexample for C2 as stated: the fifth and sixth arguments of
`effective_leakage_area` are not (stack coefficient, wind coefficient)
— in the source they are `cw` then `cs`.  Passing 1 in the fifth
position and 0 in the sixth, with |t_out - t_in| = 1 and wind speed 0,
the claim predicts `(area/1000) * sqrt(1*1 + 0*0²) = 1`, but the
function returns `(area/1000) * sqrt(0*1 + 1*0²) = 0`. -/
theorem effective_leakage_area_argument_order_cex :
    effective_leakage_area wzDemo spZero stZero 1000 1 0 ≠
      Except.ok ((1000 / 1000) * Real.sqrt (1 * |(1 : ℝ) - 0| + 0 * 0 * 0)) := by
  have hv : effective_leakage_area wzDemo spZero stZero 1000 1 0 =
      Except.ok ((1000 / 1000) * Real.sqrt (0 * |(1 : ℝ) - 0| + 1 * 0 * 0)) := by
    have h0 : wzDemo.dry_bulb_temperature = some 1 := rfl
    have h1 : spZero.dry_bulb_temperature stZero = some 0 := rfl
    have := effective_leakage_area_ok 1000 1 0 h0 h1
    simpa [wzDemo] using this
  rw [hv]
  intro h
  have h2 : ((1000 : ℝ) / 1000) * Real.sqrt (0 * |(1 : ℝ) - 0| + 1 * 0 * 0) =
      (1000 / 1000) * Real.sqrt (1 * |(1 : ℝ) - 0| + 0 * 0 * 0) :=
    (Except.ok.injEq _ _).mp h
  rw [show (0 : ℝ) * |(1 : ℝ) - 0| + 1 * 0 * 0 = 0 by ring,
    show (1 : ℝ) * |(1 : ℝ) - 0| + 0 * 0 * 0 = 1 by rw [abs_of_nonneg] <;> norm_num,
    Real.sqrt_zero, Real.sqrt_one] at h2
  norm_num at h2

/-- C2 amended: the arguments of `effective_leakage_area` after the
weather/space/state triple are, in this order, the leakage area, the
WIND coefficient and the STACK coefficient (not stack then wind as
claimed); with that order the function returns
`(area/1000) * sqrt(cs*|t_out - t_in| + cw*ws²)` whenever both
temperatures are available, treats a missing wind speed as 0, and fails
with a missing-data error when either temperature is unavailable. -/
theorem effective_leakage_area_correct (weather : CurrentWeather) (space : Space)
    (state : SimulationState) (area cw cs : ℝ) :
    (∀ t_out t_in : ℝ,
      weather.dry_bulb_temperature = some t_out →
      space.dry_bulb_temperature state = some t_in →
      (∀ ws, weather.wind_speed = some ws →
        effective_leakage_area weather space state area cw cs =
          Except.ok ((area / 1000) * Real.sqrt (cs * |t_out - t_in| + cw * ws * ws))) ∧
      (weather.wind_speed = none →
        effective_leakage_area weather space state area cw cs =
          Except.ok ((area / 1000) * Real.sqrt (cs * |t_out - t_in| + cw * 0 * 0)))) ∧
    ((weather.dry_bulb_temperature = none ∨ space.dry_bulb_temperature state = none) →
      ∃ e, effective_leakage_area weather space state area cw cs = Except.error e) := by
  constructor
  · intro t_out t_in ho hs
    constructor
    · intro ws hw
      have := effective_leakage_area_ok area cw cs ho hs
      rwa [hw] at this
    · intro hw
      have := effective_leakage_area_ok area cw cs ho hs
      rwa [hw] at this
  · intro h
    cases ho : weather.dry_bulb_temperature <;>
      cases hs : space.dry_bulb_temperature state <;>
      cases hw : weather.wind_speed <;>
      simp_all [effective_leakage_area, Bind.bind, Except.bind]

/-- Witness for C2: missing wind speed treated as zero on concrete
data. -/
theorem effective_leakage_area_correct_witness :
    effective_leakage_area wNoWind spZero stZero 50 0.000319 0.000145 =
      Except.ok ((50 / 1000) * Real.sqrt (0.000145 * |(2 : ℝ) - 0|
        + 0.000319 * 0 * 0)) :=
  ((effective_leakage_area_correct wNoWind spZero stZero 50 0.000319 0.000145).1
    2 0 rfl rfl).2 rfl

/-! ## C3 -/

/-- C3: stack-coefficient resolution uses the directly-configured value
when present; otherwise it maps storey counts 1, 2, 3 to 0.000145,
0.000290, 0.000435, maps every count above 3 to the 3-storey value
together with a non-fatal warning line (an `Except.ok`, not an error),
and fails on a storey count of 0 or on a missing storey count. -/
theorem resolve_stack_coefficient_correct (space : Space) (building : Building) :
    (∀ v, building.stack_coefficient = some v →
      resolve_stack_coefficient space building = Except.ok (v, [])) ∧
    (building.stack_coefficient = none →
      (building.n_storeys = some 1 →
        resolve_stack_coefficient space building = Except.ok (0.000145, [])) ∧
      (building.n_storeys = some 2 →
        resolve_stack_coefficient space building = Except.ok (0.000290, [])) ∧
      (building.n_storeys = some 3 →
        resolve_stack_coefficient space building = Except.ok (0.000435, [])) ∧
      (∀ n, 3 < n → building.n_storeys = some n →
        ∃ warning, resolve_stack_coefficient space building =
          Except.ok (0.000435, [warning])) ∧
      (building.n_storeys = some 0 →
        ∃ e, resolve_stack_coefficient space building = Except.error e) ∧
      (building.n_storeys = none →
        ∃ e, resolve_stack_coefficient space building = Except.error e)) := by
  refine ⟨?_, fun hsc => ⟨?_, ?_, ?_, ?_, ?_, ?_⟩⟩
  · intro v hv
    simp [resolve_stack_coefficient, hv]
  · intro hn
    simp [resolve_stack_coefficient, hsc, hn]
  · intro hn
    simp [resolve_stack_coefficient, hsc, hn]
  · intro hn
    simp [resolve_stack_coefficient, hsc, hn]
  · intro n h3 hn
    have h0 : ¬ n = 0 := by omega
    have h1 : ¬ n = 1 := by omega
    have h2 : ¬ n = 2 := by omega
    have h3' : ¬ n = 3 := by omega
    simp only [resolve_stack_coefficient, hsc, hn, h0, h1, h2, h3', if_false]
    exact ⟨_, rfl⟩
  · intro hn
    simp only [resolve_stack_coefficient, hsc, hn, if_true]
    exact ⟨_, rfl⟩
  · intro hn
    simp only [resolve_stack_coefficient, hsc, hn]
    exact ⟨_, rfl⟩

/-- Witness for C3: a 1-storey building with no direct coefficient
resolves to 0.000145 with no warning. -/
theorem resolve_stack_coefficient_correct_witness :
    resolve_stack_coefficient spZero b1Demo = Except.ok (0.000145, []) :=
  ((resolve_stack_coefficient_correct spZero b1Demo).2 rfl).1 rfl

/-! ## C4 -/

/-- Counterexample for C4 as stated: when the wind coefficient and the
shelter class are both missing (storey count present), the fatal error
message names the offending space but does NOT name the building — with
a building named "bldg77" the message does not contain that name as a
substring. -/
theorem resolve_wind_coefficient_building_name_cex :
    resolve_wind_coefficient spZero bNoShelter =
      Except.error ("Space \x27" ++ spZero.name
        ++ "\x27 has been assigned an Infiltration::EffectiveAirLeakageArea but its associated building has not enough data... Please assign values to the Building\x27s wind_coefficient or shelter_class and n_storeys fields") ∧
    ¬ ("bldg77".toList <:+: ("Space \x27" ++ spZero.name
        ++ "\x27 has been assigned an Infiltration::EffectiveAirLeakageArea but its associated building has not enough data... Please assign values to the Building\x27s wind_coefficient or shelter_class and n_storeys fields").toList) := by
  refine ⟨rfl, fun h => ?_⟩
  have h7 : (Char.ofNat 55) ∈ "bldg77".toList := by decide
  have := h.subset h7
  revert this
  decide

/-- C4 amended: wind-coefficient resolution returns the
directly-configured value when present; a missing storey count is a
fatal error whose message names both the building and the space; a
missing shelter class (with the wind coefficient also missing) is a
fatal error whose message names the offending space (but, unlike the
claim, not the building); when both storey count and shelter class are
present the resolution succeeds with the (shelter class × storey
bucket {1, 2, ≥3}) table value — all counts ≥ 3 collapse to the
3-storey entry, and NoObstructions shelter gives 0.000319 for 1 storey
and 0.000420 for 2 storeys. -/
theorem resolve_wind_coefficient_correct (space : Space) (building : Building) :
    (∀ v, building.wind_coefficient = some v →
      resolve_wind_coefficient space building = Except.ok v) ∧
    (building.wind_coefficient = none → building.n_storeys = none →
      resolve_wind_coefficient space building =
        Except.error ("Building \x27" ++ building.name
          ++ "\x27, associated with Space \x27" ++ space.name
          ++ "\x27 has not been assigned an n_storeys field... Cannot resolve Wind Coefficient for EffectiveAirLeakageArea infiltration")) ∧
    (∀ n, building.wind_coefficient = none → building.n_storeys = some n →
      building.shelter_class = none →
      resolve_wind_coefficient space building =
        Except.error ("Space \x27" ++ space.name
          ++ "\x27 has been assigned an Infiltration::EffectiveAirLeakageArea but its associated building has not enough data... Please assign values to the Building\x27s wind_coefficient or shelter_class and n_storeys fields")) ∧
    (∀ n s, building.wind_coefficient = none → building.n_storeys = some n →
      building.shelter_class = some s →
      ∃ c, resolve_wind_coefficient space building = Except.ok c) ∧
    (∀ n s, building.wind_coefficient = none → building.n_storeys = some n →
      building.shelter_class = some s → 3 ≤ n →
      resolve_wind_coefficient space building =
        resolve_wind_coefficient space { building with n_storeys := some 3 }) ∧
    (building.wind_coefficient = none → building.n_storeys = some 1 →
      building.shelter_class = some .NoObstructions →
      resolve_wind_coefficient space building = Except.ok 0.000319) ∧
    (building.wind_coefficient = none → building.n_storeys = some 2 →
      building.shelter_class = some .NoObstructions →
      resolve_wind_coefficient space building = Except.ok 0.000420) := by
  refine ⟨?_, ?_, ?_, ?_, ?_, ?_, ?_⟩
  · intro v hv
    simp [resolve_wind_coefficient, hv]
  · intro hw hn
    simp [resolve_wind_coefficient, hw, hn]
  · intro n hw hn hs
    simp [resolve_wind_coefficient, hw, hn, hs]
  · intro n s hw hn hs
    cases s <;>
      · simp only [resolve_wind_coefficient, hw, hn, hs]
        exact ⟨_, rfl⟩
  · intro n s hw hn hs h3
    have h1 : ¬ n = 1 := by omega
    have h2 : ¬ n = 2 := by omega
    cases s <;> simp [resolve_wind_coefficient, hw, hn, hs, h1, h2]
  · intro hw hn hs
    simp [resolve_wind_coefficient, hw, hn, hs]
  · intro hw hn hs
    simp [resolve_wind_coefficient, hw, hn, hs]

/-- Witness for C4: a 1-storey no-obstructions building with no direct
wind coefficient resolves to 0.000319. -/
theorem resolve_wind_coefficient_correct_witness :
    resolve_wind_coefficient spZero b1Demo = Except.ok 0.000319 :=
  (resolve_wind_coefficient_correct spZero b1Demo).2.2.2.2.2.1 rfl rfl rfl

/-! ## Characterisation of the construction loop -/

/-- Bridging equation between the do-notation of the construction loop
and `Except.map`. -/
lemma except_bind_pure_eq_map {α β γ : Type} (x : Except α β) (f : β → γ) :
    (Except.bind x fun r => Except.ok (f r)) = x.map f := by
  cases x <;> rfl

/-- Closed form of one construction iteration: the registry grows by the
two zero-initialised slots, the space receives the indices
`(h.length, h.length + 1)`, and the unit is determined by the
infiltration variant. -/
lemma processSpace_eq (i : ℕ) (h : SimulationStateHeader) (sp : Space) :
    processSpace i h sp =
      (match sp.infiltration with
        | none => Except.ok Resolver.noop
        | some (.Constant f) => Except.ok (.constant (withIndices sp h.length) f)
        | some (.Blast f) => Except.ok (.blast (withIndices sp h.length) f)
        | some (.Doe2 f) => Except.ok (.doe2 (withIndices sp h.length) f)
        | some (.DesignFlowRate a b c d phi) =>
          Except.ok (.designFlowRate (withIndices sp h.length) a b c d phi)
        | some (.EffectiveAirLeakageArea area) =>
          effective_air_leakage_resolver (withIndices sp h.length) area).map
        (fun r => (r, withIndices sp h.length,
          h ++ [(SimulationStateElement.SpaceInfiltrationVolume i, 0),
            (SimulationStateElement.SpaceInfiltrationTemperature i, 0)])) := by
  cases hinf : sp.infiltration with
  | none =>
    simp [processSpace, SimulationStateHeader.push, withIndices, hinf, Except.map]
  | some v =>
    cases v with
    | Constant f =>
      simp [processSpace, SimulationStateHeader.push, withIndices, hinf,
        constant_resolver, Except.map, Bind.bind, Except.bind]
    | Blast f =>
      simp [processSpace, SimulationStateHeader.push, withIndices, hinf,
        blast_resolver, Except.map, Bind.bind, Except.bind]
    | Doe2 f =>
      simp [processSpace, SimulationStateHeader.push, withIndices, hinf,
        doe2_resolver, Except.map, Bind.bind, Except.bind]
    | DesignFlowRate a b c d phi =>
      simp [processSpace, SimulationStateHeader.push, withIndices, hinf,
        design_flow_rate_resolver, Except.map, Bind.bind, Except.bind]
    | EffectiveAirLeakageArea area =>
      simp [processSpace, SimulationStateHeader.push, withIndices, hinf,
        Bind.bind, except_bind_pure_eq_map, List.append_assoc]

/-- A space with Effective-Leakage-Area infiltration and no owning
building makes its construction iteration fail with the message naming
the space. -/
lemma processSpace_err_no_building (i : ℕ) (h : SimulationStateHeader) (sp : Space)
    (area : ℝ) (hinf : sp.infiltration = some (.EffectiveAirLeakageArea area))
    (hb : sp.building = none) :
    processSpace i h sp = Except.error ("Space \x27" ++ sp.name
      ++ "\x27 has been assigned an Infiltration::EffectiveAirLeakageArea but no building... Assign a Building to it.") := by
  rw [processSpace_eq]
  simp [hinf, effective_air_leakage_resolver, withIndices, hb, Except.map]

/-- A construction iteration for a space without Effective-Leakage-Area
infiltration always succeeds. -/
lemma processSpace_ok_not_ela (i : ℕ) (h : SimulationStateHeader) (sp : Space)
    (hinf : ∀ area, sp.infiltration ≠ some (.EffectiveAirLeakageArea area)) :
    ∃ r, processSpace i h sp = Except.ok (r, withIndices sp h.length,
      h ++ [(SimulationStateElement.SpaceInfiltrationVolume i, 0),
        (SimulationStateElement.SpaceInfiltrationTemperature i, 0)]) := by
  rw [processSpace_eq]
  cases hi : sp.infiltration with
  | none => exact ⟨Resolver.noop, by simp [Except.map]⟩
  | some v =>
    cases v with
    | Constant f => exact ⟨.constant (withIndices sp h.length) f, by simp [Except.map]⟩
    | Blast f => exact ⟨.blast (withIndices sp h.length) f, by simp [Except.map]⟩
    | Doe2 f => exact ⟨.doe2 (withIndices sp h.length) f, by simp [Except.map]⟩
    | DesignFlowRate a b c d phi =>
      exact ⟨.designFlowRate (withIndices sp h.length) a b c d phi, by simp [Except.map]⟩
    | EffectiveAirLeakageArea area => exact absurd hi (hinf area)

/-- If some space of the list has Effective-Leakage-Area infiltration
and no owning building, the construction loop fails. -/
lemma buildUnits_err (spaces : List Space) (j : ℕ) (sp : Space) (area : ℝ)
    (hj : spaces[j]? = some sp)
    (hinf : sp.infiltration = some (.EffectiveAirLeakageArea area))
    (hb : sp.building = none) :
    ∀ (i : ℕ) (h : SimulationStateHeader), ∃ e, buildUnits spaces i h = Except.error e := by
  induction spaces generalizing j with
  | nil => simp at hj
  | cons hd tl ih =>
    intro i h
    cases j with
    | zero =>
      rw [List.getElem?_cons_zero, Option.some_inj] at hj
      subst hj
      refine ⟨"Space \x27" ++ hd.name
        ++ "\x27 has been assigned an Infiltration::EffectiveAirLeakageArea but no building... Assign a Building to it.", ?_⟩
      simp [buildUnits, processSpace_err_no_building i h hd area hinf hb,
        Bind.bind, Except.bind]
    | succ j =>
      rw [List.getElem?_cons_succ] at hj
      cases hp : processSpace i h hd with
      | error e => exact ⟨e, by simp [buildUnits, hp, Bind.bind, Except.bind]⟩
      | ok r =>
        obtain ⟨e, he⟩ := ih j hj (i + 1) r.2.2
        exact ⟨e, by simp [buildUnits, hp, he, Bind.bind, Except.bind]⟩

/-- When the offending space is preceded only by spaces that are not
Effective-Leakage-Area, the loop fails with exactly that space's
missing-building message. -/
lemma buildUnits_err_first (spaces : List Space) (j : ℕ) (sp : Space) (area : ℝ)
    (hj : spaces[j]? = some sp)
    (hinf : sp.infiltration = some (.EffectiveAirLeakageArea area))
    (hb : sp.building = none)
    (hpre : ∀ k spk area2, k < j → spaces[k]? = some spk →
      spk.infiltration ≠ some (.EffectiveAirLeakageArea area2)) :
    ∀ (i : ℕ) (h : SimulationStateHeader),
      buildUnits spaces i h = Except.error ("Space \x27" ++ sp.name
        ++ "\x27 has been assigned an Infiltration::EffectiveAirLeakageArea but no building... Assign a Building to it.") := by
  induction spaces generalizing j with
  | nil => simp at hj
  | cons hd tl ih =>
    intro i h
    cases j with
    | zero =>
      rw [List.getElem?_cons_zero, Option.some_inj] at hj
      subst hj
      simp [buildUnits, processSpace_err_no_building i h hd area hinf hb,
        Bind.bind, Except.bind]
    | succ j =>
      rw [List.getElem?_cons_succ] at hj
      have hhd : ∀ area2, hd.infiltration ≠ some (.EffectiveAirLeakageArea area2) :=
        fun area2 => hpre 0 hd area2 (Nat.succ_pos j) (List.getElem?_cons_zero)
      obtain ⟨r, hp⟩ := processSpace_ok_not_ela i h hd hhd
      have hrec := ih j hj
        (fun k spk area2 hk hkth => hpre (k + 1) spk area2 (Nat.succ_lt_succ hk)
          (by rwa [List.getElem?_cons_succ]))
        (i + 1) (h ++ [(SimulationStateElement.SpaceInfiltrationVolume i, 0),
          (SimulationStateElement.SpaceInfiltrationTemperature i, 0)])
      simp [buildUnits, hp, hrec, Bind.bind, Except.bind]

/-! ## C6 -/

/-- C6 amended: whenever some space of the model has
Effective-Leakage-Area infiltration and no owning building,
`AirFlowModel.new` returns an error (no model value is produced);
the error message is guaranteed to name that space when no earlier
space of the model has Effective-Leakage-Area infiltration (an earlier
Effective-Leakage-Area space whose own resolution fails makes
construction fail with that other space's message instead — only
Effective-Leakage-Area spaces can fail). -/
theorem new_missing_building_fails (model : SimpleModel) (h₀ : SimulationStateHeader)
    (j : ℕ) (sp : Space) (area : ℝ)
    (hj : model.spaces[j]? = some sp)
    (hinf : sp.infiltration = some (.EffectiveAirLeakageArea area))
    (hb : sp.building = none) :
    (∃ e, AirFlowModel.new model h₀ = Except.error e) ∧
    ((∀ k spk area2, k < j → model.spaces[k]? = some spk →
        spk.infiltration ≠ some (.EffectiveAirLeakageArea area2)) →
      AirFlowModel.new model h₀ = Except.error ("Space \x27" ++ sp.name
        ++ "\x27 has been assigned an Infiltration::EffectiveAirLeakageArea but no building... Assign a Building to it.")) := by
  constructor
  · obtain ⟨e, he⟩ := buildUnits_err model.spaces j sp area hj hinf hb 0 h₀
    exact ⟨e, by simp [AirFlowModel.new, he, Bind.bind, Except.bind]⟩
  · intro hpre
    have he := buildUnits_err_first model.spaces j sp area hj hinf hb hpre 0 h₀
    simp [AirFlowModel.new, he, Bind.bind, Except.bind]

/-- Witness for C6: construction of a model holding only `spLonely`
fails with the message naming it. -/
theorem new_missing_building_fails_witness :
    AirFlowModel.new ⟨[spLonely]⟩ hDemo = Except.error ("Space \x27" ++ spLonely.name
      ++ "\x27 has been assigned an Infiltration::EffectiveAirLeakageArea but no building... Assign a Building to it.") :=
  (new_missing_building_fails ⟨[spLonely]⟩ hDemo 0 spLonely 500 rfl rfl rfl).2
    (fun k _ _ hk _ => absurd hk (Nat.not_lt_zero k))

/-- Counterexample for C6 as stated: in the model `[spAAA, spZone9]`,
the space `spZone9` has Effective-Leakage-Area infiltration and no
owning building, and construction does return an error — but the error
is produced by the earlier failing space `spAAA`, and its message does
not name `spZone9` (it does not even contain the character `9`). -/
theorem new_missing_building_cex :
    (SimpleModel.spaces ⟨[spAAA, spZone9]⟩)[1]? = some spZone9 ∧
    spZone9.infiltration = some (.EffectiveAirLeakageArea 1) ∧
    spZone9.building = none ∧
    AirFlowModel.new ⟨[spAAA, spZone9]⟩ hDemo = Except.error ("Space \x27" ++ spAAA.name
      ++ "\x27 has been assigned an Infiltration::EffectiveAirLeakageArea but its associated building has not enough data... Please assign values to the Building\x27s stack_coefficient or n_storey fields") ∧
    ¬ (spZone9.name.toList <:+: ("Space \x27" ++ spAAA.name
      ++ "\x27 has been assigned an Infiltration::EffectiveAirLeakageArea but its associated building has not enough data... Please assign values to the Building\x27s stack_coefficient or n_storey fields").toList) := by
  refine ⟨rfl, rfl, rfl, rfl, fun h => ?_⟩
  have h9 : (Char.ofNat 57) ∈ spZone9.name.toList := by decide
  have := h.subset h9
  revert this
  decide

/-! ## Frame and read-dependency facts about the computation units -/

/-- A temperature write leaves every slot other than the space's
infiltration-temperature slot untouched. -/
lemma set_temp_getElem_ne (sp : Space) (st : SimulationState) (v : ℝ) (k : ℕ)
    (h : sp.infiltration_temperature_index ≠ some k) :
    (sp.set_infiltration_temperature st v)[k]? = st[k]? := by
  unfold Space.set_infiltration_temperature
  cases hi : sp.infiltration_temperature_index with
  | none => rfl
  | some i =>
    have hik : i ≠ k := fun he => h (by rw [hi, he])
    exact List.getElem?_set_ne hik

/-- A volume write leaves every slot other than the space's
infiltration-volume slot untouched. -/
lemma set_vol_getElem_ne (sp : Space) (st : SimulationState) (v : ℝ) (k : ℕ)
    (h : sp.infiltration_volume_index ≠ some k) :
    (sp.set_infiltration_volume st v)[k]? = st[k]? := by
  unfold Space.set_infiltration_volume
  cases hi : sp.infiltration_volume_index with
  | none => rfl
  | some i =>
    have hik : i ≠ k := fun he => h (by rw [hi, he])
    exact List.getElem?_set_ne hik

/-- Writes preserve the buffer's length. -/
lemma set_temp_length (sp : Space) (st : SimulationState) (v : ℝ) :
    (sp.set_infiltration_temperature st v).length = st.length := by
  unfold Space.set_infiltration_temperature
  cases sp.infiltration_temperature_index <;> simp

/-- Writes preserve the buffer's length. -/
lemma set_vol_length (sp : Space) (st : SimulationState) (v : ℝ) :
    (sp.set_infiltration_volume st v).length = st.length := by
  unfold Space.set_infiltration_volume
  cases sp.infiltration_volume_index <;> simp

/-- Every unit invocation preserves the buffer's length. -/
lemma runResolver_length (r : Resolver) (w : CurrentWeather) (st : SimulationState) :
    ((runResolver r w st).1).length = st.length := by
  cases r with
  | noop => rfl
  | constant sp v =>
    cases hw : w.dry_bulb_temperature <;>
      simp [runResolver, hw, set_vol_length, set_temp_length]
  | blast sp v =>
    cases hw : w.dry_bulb_temperature with
    | none => simp [runResolver, hw]
    | some t =>
      cases hres : blast_design_flow_rate w sp (sp.set_infiltration_temperature st t) v <;>
        simp [runResolver, hw, hres, set_vol_length, set_temp_length]
  | doe2 sp v =>
    cases hw : w.dry_bulb_temperature with
    | none => simp [runResolver, hw]
    | some t =>
      cases hres : doe2_design_flow_rate w sp (sp.set_infiltration_temperature st t) v <;>
        simp [runResolver, hw, hres, set_vol_length, set_temp_length]
  | designFlowRate sp a b c d v =>
    cases hw : w.dry_bulb_temperature with
    | none => simp [runResolver, hw]
    | some t =>
      cases hres : design_flow_rate w sp (sp.set_infiltration_temperature st t) a b c d v <;>
        simp [runResolver, hw, hres, set_vol_length, set_temp_length]
  | effectiveAirLeakage sp al cw cs =>
    cases hw : w.dry_bulb_temperature with
    | none => simp [runResolver, hw]
    | some t =>
      cases hres : effective_leakage_area w sp (sp.set_infiltration_temperature st t) al cw cs <;>
        simp [runResolver, hw, hres, set_vol_length, set_temp_length]

/-- Write confinement of a single unit: a unit invocation changes no
slot other than its space's infiltration-volume and
infiltration-temperature slots (the no-op unit changes nothing). -/
lemma runResolver_frame (r : Resolver) (w : CurrentWeather) (st : SimulationState) (k : ℕ)
    (h : ∀ sp, r.space = some sp →
      sp.infiltration_volume_index ≠ some k ∧ sp.infiltration_temperature_index ≠ some k) :
    ((runResolver r w st).1)[k]? = st[k]? := by
  cases r with
  | noop => rfl
  | constant sp v =>
    obtain ⟨hv, ht⟩ := h sp rfl
    cases hw : w.dry_bulb_temperature <;>
      simp [runResolver, hw, set_vol_getElem_ne sp _ _ k hv, set_temp_getElem_ne sp _ _ k ht]
  | blast sp v =>
    obtain ⟨hv, ht⟩ := h sp rfl
    cases hw : w.dry_bulb_temperature with
    | none => simp [runResolver, hw]
    | some t =>
      cases hres : blast_design_flow_rate w sp (sp.set_infiltration_temperature st t) v <;>
        simp [runResolver, hw, hres, set_vol_getElem_ne sp _ _ k hv,
          set_temp_getElem_ne sp _ _ k ht]
  | doe2 sp v =>
    obtain ⟨hv, ht⟩ := h sp rfl
    cases hw : w.dry_bulb_temperature with
    | none => simp [runResolver, hw]
    | some t =>
      cases hres : doe2_design_flow_rate w sp (sp.set_infiltration_temperature st t) v <;>
        simp [runResolver, hw, hres, set_vol_getElem_ne sp _ _ k hv,
          set_temp_getElem_ne sp _ _ k ht]
  | designFlowRate sp a b c d v =>
    obtain ⟨hv, ht⟩ := h sp rfl
    cases hw : w.dry_bulb_temperature with
    | none => simp [runResolver, hw]
    | some t =>
      cases hres : design_flow_rate w sp (sp.set_infiltration_temperature st t) a b c d v <;>
        simp [runResolver, hw, hres, set_vol_getElem_ne sp _ _ k hv,
          set_temp_getElem_ne sp _ _ k ht]
  | effectiveAirLeakage sp al cw cs =>
    obtain ⟨hv, ht⟩ := h sp rfl
    cases hw : w.dry_bulb_temperature with
    | none => simp [runResolver, hw]
    | some t =>
      cases hres : effective_leakage_area w sp (sp.set_infiltration_temperature st t) al cw cs <;>
        simp [runResolver, hw, hres, set_vol_getElem_ne sp _ _ k hv,
          set_temp_getElem_ne sp _ _ k ht]

/-- Two equal-length buffers stay pointwise related (equal, or both
still holding their respective original values) under a write of the
same value at the same position. -/
lemma getElem?_set_or (base₁ base₂ cur₁ cur₂ : SimulationState) (i : ℕ) (v : ℝ)
    (hlen : cur₁.length = cur₂.length)
    (hR : ∀ k : ℕ, cur₁[k]? = cur₂[k]? ∨ (cur₁[k]? = base₁[k]? ∧ cur₂[k]? = base₂[k]?)) :
    ∀ k : ℕ, (cur₁.set i v)[k]? = (cur₂.set i v)[k]? ∨
      ((cur₁.set i v)[k]? = base₁[k]? ∧ (cur₂.set i v)[k]? = base₂[k]?) := by
  intro k
  by_cases hk : i = k
  · subst hk
    left
    rw [List.getElem?_set_self', List.getElem?_set_self']
    cases h1 : cur₁[i]? <;> cases h2 : cur₂[i]? <;>
      simp_all [List.getElem?_eq_none_iff, List.getElem?_eq_some_iff]
  · rcases hR k with h | h
    · left
      rw [List.getElem?_set_ne hk, List.getElem?_set_ne hk]
      exact h
    · right
      rw [List.getElem?_set_ne hk, List.getElem?_set_ne hk]
      exact h

/-- Lifting of `getElem?_set_or` to a temperature write. -/
lemma set_temp_or (sp : Space) (base₁ base₂ cur₁ cur₂ : SimulationState) (v : ℝ)
    (hlen : cur₁.length = cur₂.length)
    (hR : ∀ k : ℕ, cur₁[k]? = cur₂[k]? ∨ (cur₁[k]? = base₁[k]? ∧ cur₂[k]? = base₂[k]?)) :
    ∀ k : ℕ, (sp.set_infiltration_temperature cur₁ v)[k]? =
        (sp.set_infiltration_temperature cur₂ v)[k]? ∨
      ((sp.set_infiltration_temperature cur₁ v)[k]? = base₁[k]? ∧
        (sp.set_infiltration_temperature cur₂ v)[k]? = base₂[k]?) := by
  cases hi : sp.infiltration_temperature_index with
  | none => simpa [Space.set_infiltration_temperature, hi] using hR
  | some i =>
    simp only [Space.set_infiltration_temperature, hi]
    exact getElem?_set_or base₁ base₂ cur₁ cur₂ i v hlen hR

/-- Lifting of `getElem?_set_or` to a volume write. -/
lemma set_vol_or (sp : Space) (base₁ base₂ cur₁ cur₂ : SimulationState) (v : ℝ)
    (hlen : cur₁.length = cur₂.length)
    (hR : ∀ k : ℕ, cur₁[k]? = cur₂[k]? ∨ (cur₁[k]? = base₁[k]? ∧ cur₂[k]? = base₂[k]?)) :
    ∀ k : ℕ, (sp.set_infiltration_volume cur₁ v)[k]? =
        (sp.set_infiltration_volume cur₂ v)[k]? ∨
      ((sp.set_infiltration_volume cur₁ v)[k]? = base₁[k]? ∧
        (sp.set_infiltration_volume cur₂ v)[k]? = base₂[k]?) := by
  cases hi : sp.infiltration_volume_index with
  | none => simpa [Space.set_infiltration_volume, hi] using hR
  | some i =>
    simp only [Space.set_infiltration_volume, hi]
    exact getElem?_set_or base₁ base₂ cur₁ cur₂ i v hlen hR

/-- The dry-bulb reading after the temperature write is determined by
the dry-bulb reading of the original buffer (the written value is the
same on both sides). -/
lemma dry_bulb_after_temp_write (sp : Space) (st₁ st₂ : SimulationState) (t : ℝ)
    (hlen : st₁.length = st₂.length)
    (hdbt : ∀ d, sp.dry_bulb_temperature_index = some d → st₁[d]? = st₂[d]?) :
    sp.dry_bulb_temperature (sp.set_infiltration_temperature st₁ t) =
      sp.dry_bulb_temperature (sp.set_infiltration_temperature st₂ t) := by
  cases hd : sp.dry_bulb_temperature_index with
  | none => simp [Space.dry_bulb_temperature, hd]
  | some d =>
    cases hi : sp.infiltration_temperature_index with
    | none =>
      simp only [Space.dry_bulb_temperature, Space.set_infiltration_temperature, hd, hi]
      exact hdbt d hd
    | some i =>
      simp only [Space.dry_bulb_temperature, Space.set_infiltration_temperature, hd, hi]
      by_cases hid : i = d
      · subst hid
        rw [List.getElem?_set_self', List.getElem?_set_self']
        cases h1 : st₁[i]? <;> cases h2 : st₂[i]? <;>
          simp_all [List.getElem?_eq_none_iff, List.getElem?_eq_some_iff]
      · rw [List.getElem?_set_ne hid, List.getElem?_set_ne hid]
        exact hdbt d hd

/-- `design_flow_rate` touches the state only through the space's
dry-bulb reading. -/
lemma design_flow_rate_state_congr (w : CurrentWeather) (sp : Space)
    (st₁ st₂ : SimulationState) (design_rate a b c d : ℝ)
    (h : sp.dry_bulb_temperature st₁ = sp.dry_bulb_temperature st₂) :
    design_flow_rate w sp st₁ design_rate a b c d =
      design_flow_rate w sp st₂ design_rate a b c d := by
  unfold design_flow_rate
  rw [h]

/-- `effective_leakage_area` touches the state only through the space's
dry-bulb reading. -/
lemma effective_leakage_area_state_congr (w : CurrentWeather) (sp : Space)
    (st₁ st₂ : SimulationState) (al cw cs : ℝ)
    (h : sp.dry_bulb_temperature st₁ = sp.dry_bulb_temperature st₂) :
    effective_leakage_area w sp st₁ al cw cs =
      effective_leakage_area w sp st₂ al cw cs := by
  unfold effective_leakage_area
  rw [h]

/-- Read dependency of a single unit: on equal-length buffers that agree
on the unit's own dry-bulb slot, an invocation faults identically and
leaves every slot either equal on both sides or unchanged on both
sides — the unit reads the state only through its space's dry-bulb
slot. -/
lemma runResolver_reads (r : Resolver) (w : CurrentWeather) (st₁ st₂ : SimulationState)
    (hlen : st₁.length = st₂.length)
    (hdbt : ∀ sp, r.space = some sp → ∀ d, sp.dry_bulb_temperature_index = some d →
      st₁[d]? = st₂[d]?) :
    (runResolver r w st₁).2 = (runResolver r w st₂).2 ∧
    ∀ k : ℕ, ((runResolver r w st₁).1)[k]? = ((runResolver r w st₂).1)[k]? ∨
      (((runResolver r w st₁).1)[k]? = st₁[k]? ∧ ((runResolver r w st₂).1)[k]? = st₂[k]?) := by
  have hid : ∀ k : ℕ, st₁[k]? = st₂[k]? ∨ (st₁[k]? = st₁[k]? ∧ st₂[k]? = st₂[k]?) :=
    fun k => Or.inr ⟨rfl, rfl⟩
  cases r with
  | noop => exact ⟨rfl, fun k => Or.inr ⟨rfl, rfl⟩⟩
  | constant sp v =>
    cases hw : w.dry_bulb_temperature with
    | none => exact ⟨by simp [runResolver, hw], fun k => by simp [runResolver, hw]⟩
    | some t =>
      refine ⟨by simp [runResolver, hw], fun k => ?_⟩
      simp only [runResolver, hw]
      exact set_vol_or sp st₁ st₂ _ _ v
        (by rw [set_temp_length, set_temp_length, hlen])
        (set_temp_or sp st₁ st₂ st₁ st₂ t hlen hid) k
  | blast sp v =>
    cases hw : w.dry_bulb_temperature with
    | none => exact ⟨by simp [runResolver, hw], fun k => by simp [runResolver, hw]⟩
    | some t =>
      have hcongr : blast_design_flow_rate w sp (sp.set_infiltration_temperature st₁ t) v =
          blast_design_flow_rate w sp (sp.set_infiltration_temperature st₂ t) v := by
        unfold blast_design_flow_rate
        exact design_flow_rate_state_congr w sp _ _ v 0.606 0.03636 0.1177 0
          (dry_bulb_after_temp_write sp st₁ st₂ t hlen (hdbt sp rfl))
      have hlen' : (sp.set_infiltration_temperature st₁ t).length =
          (sp.set_infiltration_temperature st₂ t).length := by
        rw [set_temp_length, set_temp_length, hlen]
      have hor := set_temp_or sp st₁ st₂ st₁ st₂ t hlen hid
      cases hres : blast_design_flow_rate w sp (sp.set_infiltration_temperature st₂ t) v with
      | error e =>
        refine ⟨by simp [runResolver, hw, hres, hcongr.trans hres], fun k => ?_⟩
        simp only [runResolver, hw, hres, hcongr.trans hres]
        exact hor k
      | ok vol =>
        refine ⟨by simp [runResolver, hw, hres, hcongr.trans hres], fun k => ?_⟩
        simp only [runResolver, hw, hres, hcongr.trans hres]
        exact set_vol_or sp st₁ st₂ _ _ vol hlen' hor k
  | doe2 sp v =>
    cases hw : w.dry_bulb_temperature with
    | none => exact ⟨by simp [runResolver, hw], fun k => by simp [runResolver, hw]⟩
    | some t =>
      have hcongr : doe2_design_flow_rate w sp (sp.set_infiltration_temperature st₁ t) v =
          doe2_design_flow_rate w sp (sp.set_infiltration_temperature st₂ t) v := by
        unfold doe2_design_flow_rate
        exact design_flow_rate_state_congr w sp _ _ v 0 0 0.224 0
          (dry_bulb_after_temp_write sp st₁ st₂ t hlen (hdbt sp rfl))
      have hlen' : (sp.set_infiltration_temperature st₁ t).length =
          (sp.set_infiltration_temperature st₂ t).length := by
        rw [set_temp_length, set_temp_length, hlen]
      have hor := set_temp_or sp st₁ st₂ st₁ st₂ t hlen hid
      cases hres : doe2_design_flow_rate w sp (sp.set_infiltration_temperature st₂ t) v with
      | error e =>
        refine ⟨by simp [runResolver, hw, hres, hcongr.trans hres], fun k => ?_⟩
        simp only [runResolver, hw, hres, hcongr.trans hres]
        exact hor k
      | ok vol =>
        refine ⟨by simp [runResolver, hw, hres, hcongr.trans hres], fun k => ?_⟩
        simp only [runResolver, hw, hres, hcongr.trans hres]
        exact set_vol_or sp st₁ st₂ _ _ vol hlen' hor k
  | designFlowRate sp a b c d v =>
    cases hw : w.dry_bulb_temperature with
    | none => exact ⟨by simp [runResolver, hw], fun k => by simp [runResolver, hw]⟩
    | some t =>
      have hcongr : design_flow_rate w sp (sp.set_infiltration_temperature st₁ t) a b c d v =
          design_flow_rate w sp (sp.set_infiltration_temperature st₂ t) a b c d v :=
        design_flow_rate_state_congr w sp _ _ a b c d v
          (dry_bulb_after_temp_write sp st₁ st₂ t hlen (hdbt sp rfl))
      have hlen' : (sp.set_infiltration_temperature st₁ t).length =
          (sp.set_infiltration_temperature st₂ t).length := by
        rw [set_temp_length, set_temp_length, hlen]
      have hor := set_temp_or sp st₁ st₂ st₁ st₂ t hlen hid
      cases hres : design_flow_rate w sp (sp.set_infiltration_temperature st₂ t) a b c d v with
      | error e =>
        refine ⟨by simp [runResolver, hw, hres, hcongr.trans hres], fun k => ?_⟩
        simp only [runResolver, hw, hres, hcongr.trans hres]
        exact hor k
      | ok vol =>
        refine ⟨by simp [runResolver, hw, hres, hcongr.trans hres], fun k => ?_⟩
        simp only [runResolver, hw, hres, hcongr.trans hres]
        exact set_vol_or sp st₁ st₂ _ _ vol hlen' hor k
  | effectiveAirLeakage sp al cw cs =>
    cases hw : w.dry_bulb_temperature with
    | none => exact ⟨by simp [runResolver, hw], fun k => by simp [runResolver, hw]⟩
    | some t =>
      have hcongr : effective_leakage_area w sp (sp.set_infiltration_temperature st₁ t) al cw cs =
          effective_leakage_area w sp (sp.set_infiltration_temperature st₂ t) al cw cs :=
        effective_leakage_area_state_congr w sp _ _ al cw cs
          (dry_bulb_after_temp_write sp st₁ st₂ t hlen (hdbt sp rfl))
      have hlen' : (sp.set_infiltration_temperature st₁ t).length =
          (sp.set_infiltration_temperature st₂ t).length := by
        rw [set_temp_length, set_temp_length, hlen]
      have hor := set_temp_or sp st₁ st₂ st₁ st₂ t hlen hid
      cases hres : effective_leakage_area w sp (sp.set_infiltration_temperature st₂ t) al cw cs with
      | error e =>
        refine ⟨by simp [runResolver, hw, hres, hcongr.trans hres], fun k => ?_⟩
        simp only [runResolver, hw, hres, hcongr.trans hres]
        exact hor k
      | ok vol =>
        refine ⟨by simp [runResolver, hw, hres, hcongr.trans hres], fun k => ?_⟩
        simp only [runResolver, hw, hres, hcongr.trans hres]
        exact set_vol_or sp st₁ st₂ _ _ vol hlen' hor k

/-- The per-timestep loop preserves the buffer's length. -/
lemma runUnits_length (rs : List Resolver) (w : CurrentWeather) (st : SimulationState) :
    ((runUnits rs w st).1).length = st.length := by
  induction rs generalizing st with
  | nil => rfl
  | cons r rest ih =>
    cases hres : runResolver r w st with
    | mk st' fault =>
      have hl : st'.length = st.length := by
        have := runResolver_length r w st
        rwa [hres] at this
      cases fault with
      | none => simp only [runUnits, hres]; rw [ih st', hl]
      | some e => simp only [runUnits, hres]; exact hl

/-- Write confinement of the whole per-timestep loop: a slot that is not
the infiltration-volume or infiltration-temperature slot of any unit's
space is unchanged by the loop, even when the loop stops at a fault. -/
lemma runUnits_frame (rs : List Resolver) (w : CurrentWeather) (st : SimulationState) (k : ℕ)
    (h : ∀ r ∈ rs, ∀ sp, r.space = some sp →
      sp.infiltration_volume_index ≠ some k ∧ sp.infiltration_temperature_index ≠ some k) :
    ((runUnits rs w st).1)[k]? = st[k]? := by
  induction rs generalizing st with
  | nil => rfl
  | cons r rest ih =>
    have hr := runResolver_frame r w st k (h r (List.mem_cons_self r rest))
    cases hres : runResolver r w st with
    | mk st' fault =>
      have hst' : st'[k]? = st[k]? := by rw [← hr, hres]
      cases fault with
      | none =>
        simp only [runUnits, hres]
        rw [ih st' (fun r2 hr2 => h r2 (List.mem_cons_of_mem r hr2)), hst']
      | some e =>
        simp only [runUnits, hres]
        exact hst'

/-- Read dependency of the whole loop: when every unit's output slots
lie at or above `L`, every unit's dry-bulb slot lies below `L`, and the
two equal-length start buffers agree below `L`, the loop faults
identically on both and leaves every slot either equal on both sides or
unchanged on both sides. -/
lemma runUnits_reads (rs : List Resolver) (L : ℕ) (w : CurrentWeather)
    (st₁ st₂ : SimulationState)
    (hsep : ∀ r ∈ rs, ∀ sp, r.space = some sp →
      (∀ b, sp.infiltration_volume_index = some b → L ≤ b) ∧
      (∀ b, sp.infiltration_temperature_index = some b → L ≤ b) ∧
      (∀ d, sp.dry_bulb_temperature_index = some d → d < L))
    (hlen : st₁.length = st₂.length)
    (hlow : ∀ k : ℕ, k < L → st₁[k]? = st₂[k]?) :
    (runUnits rs w st₁).2 = (runUnits rs w st₂).2 ∧
    ∀ k : ℕ, ((runUnits rs w st₁).1)[k]? = ((runUnits rs w st₂).1)[k]? ∨
      (((runUnits rs w st₁).1)[k]? = st₁[k]? ∧ ((runUnits rs w st₂).1)[k]? = st₂[k]?) := by
  induction rs generalizing st₁ st₂ with
  | nil => exact ⟨rfl, fun k => Or.inr ⟨rfl, rfl⟩⟩
  | cons r rest ih =>
    have hsep_r := hsep r (List.mem_cons_self r rest)
    obtain ⟨hfault, hor⟩ := runResolver_reads r w st₁ st₂ hlen
      (fun sp hsp d hd => hlow d ((hsep_r sp hsp).2.2 d hd))
    cases hres1 : runResolver r w st₁ with
    | mk s₁ f₁ =>
      cases hres2 : runResolver r w st₂ with
      | mk s₂ f₂ =>
        rw [hres1, hres2] at hfault
        simp only at hfault
        subst hfault
        have horK : ∀ k : ℕ, s₁[k]? = s₂[k]? ∨ (s₁[k]? = st₁[k]? ∧ s₂[k]? = st₂[k]?) := by
          intro k
          have := hor k
          rwa [hres1, hres2] at this
        cases f₁ with
        | some e =>
          simp only [runUnits, hres1, hres2]
          exact ⟨by trivial, horK⟩
        | none =>
          simp only [runUnits, hres1, hres2]
          have hlen1 : s₁.length = st₁.length := by
            have := runResolver_length r w st₁; rwa [hres1] at this
          have hlen2 : s₂.length = st₂.length := by
            have := runResolver_length r w st₂; rwa [hres2] at this
          have hframe1 : ∀ k : ℕ, k < L → s₁[k]? = st₁[k]? := by
            intro k hk
            have := runResolver_frame r w st₁ k (fun sp hsp =>
              ⟨fun he => absurd ((hsep_r sp hsp).1 k he) (by omega),
              fun he => absurd ((hsep_r sp hsp).2.1 k he) (by omega)⟩)
            rwa [hres1] at this
          have hframe2 : ∀ k : ℕ, k < L → s₂[k]? = st₂[k]? := by
            intro k hk
            have := runResolver_frame r w st₂ k (fun sp hsp =>
              ⟨fun he => absurd ((hsep_r sp hsp).1 k he) (by omega),
              fun he => absurd ((hsep_r sp hsp).2.1 k he) (by omega)⟩)
            rwa [hres2] at this
          obtain ⟨hf, ho⟩ := ih s₁ s₂
            (fun r2 hr2 => hsep r2 (List.mem_cons_of_mem r hr2))
            (by rw [hlen1, hlen2, hlen])
            (fun k hk => by rw [hframe1 k hk, hframe2 k hk]; exact hlow k hk)
          refine ⟨hf, fun k => ?_⟩
          rcases ho k with h1 | h1
          · exact Or.inl h1
          · rcases horK k with h2 | h2
            · exact Or.inl (by rw [h1.1, h1.2, h2])
            · exact Or.inr ⟨h1.1.trans h2.1, h1.2.trans h2.2⟩

/-- A successfully built Effective-Leakage-Area unit captures exactly
the space it was built for. -/
lemma effective_air_leakage_resolver_ok_space (sp : Space) (al : ℝ) (r : Resolver)
    (h : effective_air_leakage_resolver sp al = Except.ok r) : r.space = some sp := by
  unfold effective_air_leakage_resolver at h
  cases hb : sp.building with
  | none => rw [hb] at h; exact absurd h (by simp)
  | some b =>
    rw [hb] at h
    cases hs : resolve_stack_coefficient sp b with
    | error e => simp [hs, Bind.bind, Except.bind] at h
    | ok cs =>
      cases hw : resolve_wind_coefficient sp b with
      | error e => simp [hs, hw, Bind.bind, Except.bind] at h
      | ok cw =>
        simp only [hs, hw, Bind.bind, Except.bind, Except.ok.injEq] at h
        rw [← h]
        rfl

/-- What a successful construction iteration guarantees: the indices
recorded on the space, the two appended registry slots, and the shape
of the produced unit. -/
lemma processSpace_ok_facts (i : ℕ) (h : SimulationStateHeader) (sp : Space)
    (r0 : Resolver) (sp2 : Space) (h2 : SimulationStateHeader)
    (hp : processSpace i h sp = Except.ok (r0, sp2, h2)) :
    sp2 = withIndices sp h.length ∧
    h2 = h ++ [(SimulationStateElement.SpaceInfiltrationVolume i, 0),
      (SimulationStateElement.SpaceInfiltrationTemperature i, 0)] ∧
    (r0.space = none ∨ r0.space = some (withIndices sp h.length)) ∧
    (sp.infiltration = none → r0 = Resolver.noop) := by
  rw [processSpace_eq] at hp
  cases hinf : sp.infiltration with
  | none =>
    rw [hinf] at hp
    simp only [Except.map, Except.ok.injEq, Prod.mk.injEq] at hp
    obtain ⟨h1, h2eq, h3⟩ := hp
    exact ⟨h2eq.symm, h3.symm, Or.inl (by rw [← h1]; rfl), fun _ => h1.symm⟩
  | some v =>
    cases v with
    | Constant f =>
      rw [hinf] at hp
      simp only [Except.map, Except.ok.injEq, Prod.mk.injEq] at hp
      obtain ⟨h1, h2eq, h3⟩ := hp
      exact ⟨h2eq.symm, h3.symm, Or.inr (by rw [← h1]; rfl),
        fun hc => absurd hc (by simp)⟩
    | Blast f =>
      rw [hinf] at hp
      simp only [Except.map, Except.ok.injEq, Prod.mk.injEq] at hp
      obtain ⟨h1, h2eq, h3⟩ := hp
      exact ⟨h2eq.symm, h3.symm, Or.inr (by rw [← h1]; rfl),
        fun hc => absurd hc (by simp)⟩
    | Doe2 f =>
      rw [hinf] at hp
      simp only [Except.map, Except.ok.injEq, Prod.mk.injEq] at hp
      obtain ⟨h1, h2eq, h3⟩ := hp
      exact ⟨h2eq.symm, h3.symm, Or.inr (by rw [← h1]; rfl),
        fun hc => absurd hc (by simp)⟩
    | DesignFlowRate a b c d phi =>
      rw [hinf] at hp
      simp only [Except.map, Except.ok.injEq, Prod.mk.injEq] at hp
      obtain ⟨h1, h2eq, h3⟩ := hp
      exact ⟨h2eq.symm, h3.symm, Or.inr (by rw [← h1]; rfl),
        fun hc => absurd hc (by simp)⟩
    | EffectiveAirLeakageArea area =>
      rw [hinf] at hp
      have hp' : (effective_air_leakage_resolver (withIndices sp h.length) area).map
          (fun r => (r, withIndices sp h.length,
            h ++ [(SimulationStateElement.SpaceInfiltrationVolume i, 0),
              (SimulationStateElement.SpaceInfiltrationTemperature i, 0)])) =
          Except.ok (r0, sp2, h2) := hp
      cases hr : effective_air_leakage_resolver (withIndices sp h.length) area with
      | error e => rw [hr] at hp'; exact absurd hp' (by simp [Except.map])
      | ok r =>
        rw [hr] at hp'
        simp only [Except.map, Except.ok.injEq, Prod.mk.injEq] at hp'
        obtain ⟨h1, h2eq, h3⟩ := hp'
        refine ⟨h2eq.symm, h3.symm, Or.inr ?_, fun hc => absurd hc (by simp)⟩
        rw [← h1]
        exact effective_air_leakage_resolver_ok_space _ area r hr

/-- The construction loop's invariant: unit and space counts, registry
growth, preservation of the pre-existing registry prefix, the zero
initial values of the newly registered slots, and the per-space slot
indices and unit shape. -/
lemma buildUnits_ok (spaces : List Space) (i : ℕ) (h : SimulationStateHeader)
    (rs : List Resolver) (sps : List Space) (hh : SimulationStateHeader)
    (heq : buildUnits spaces i h = Except.ok (rs, sps, hh)) :
    rs.length = spaces.length ∧
    sps.length = spaces.length ∧
    hh.length = h.length + 2 * spaces.length ∧
    (∀ k : ℕ, k < h.length → hh[k]? = h[k]?) ∧
    (∀ j : ℕ, j < spaces.length →
      (hh[h.length + 2*j]?).map Prod.snd = some 0 ∧
      (hh[h.length + 2*j + 1]?).map Prod.snd = some 0) ∧
    (∀ (j : ℕ) (sp₀ : Space), spaces[j]? = some sp₀ →
      sps[j]? = some (withIndices sp₀ (h.length + 2*j)) ∧
      ∃ r, rs[j]? = some r ∧
        (r.space = none ∨ r.space = some (withIndices sp₀ (h.length + 2*j))) ∧
        (sp₀.infiltration = none → r = Resolver.noop)) := by
  induction spaces generalizing i h rs sps hh with
  | nil =>
    simp only [buildUnits, Except.ok.injEq] at heq
    obtain ⟨rfl, rfl, rfl⟩ := heq
    refine ⟨rfl, rfl, by simp, fun k _ => rfl, fun j hj => absurd hj (by simp), ?_⟩
    intro j sp₀ hj
    simp at hj
  | cons sp rest ih =>
    cases hp : processSpace i h sp with
    | error e => simp [buildUnits, hp, Bind.bind, Except.bind] at heq
    | ok trip =>
      obtain ⟨r0, sp2, h2⟩ := trip
      cases hb : buildUnits rest (i + 1) h2 with
      | error e => simp [buildUnits, hp, hb, Bind.bind, Except.bind] at heq
      | ok trip2 =>
        obtain ⟨rs', sps', hh'⟩ := trip2
        have heq' : r0 :: rs' = rs ∧ sp2 :: sps' = sps ∧ hh' = hh := by
          simpa [buildUnits, hp, hb, Bind.bind, Except.bind] using heq
        obtain ⟨he1, he2, he3⟩ := heq'
        subst he1
        subst he2
        subst he3
        obtain ⟨hsp2, hh2, hr0space, hr0noop⟩ :=
          processSpace_ok_facts i h sp r0 sp2 h2 hp
        have hl2 : h2.length = h.length + 2 := by rw [hh2]; simp
        obtain ⟨ihrs, ihsps, ihlen, ihpre, ihzero, ihper⟩ :=
          ih (i + 1) h2 rs' sps' hh' hb
        refine ⟨?_, ?_, ?_, ?_, ?_, ?_⟩
        · simp [ihrs]
        · simp [ihsps]
        · rw [ihlen, hl2]
          simp
          ring
        · intro k hk
          rw [ihpre k (by omega), hh2]
          rw [List.getElem?_append]
          simp [hk]
        · intro j hj
          cases j with
          | zero =>
            have h0 : hh'[h.length]? = h2[h.length]? := ihpre h.length (by omega)
            have h1 : hh'[h.length + 1]? = h2[h.length + 1]? := ihpre (h.length + 1) (by omega)
            rw [hh2] at h0 h1
            constructor
            · rw [show h.length + 2 * 0 = h.length by ring, h0]
              rw [List.getElem?_append]
              simp
            · rw [show h.length + 2 * 0 + 1 = h.length + 1 by ring, h1]
              rw [List.getElem?_append]
              simp
          | succ j =>
            have := ihzero j (by simpa using hj)
            constructor
            · rw [show h.length + 2 * (j + 1) = h2.length + 2 * j by omega]
              exact this.1
            · rw [show h.length + 2 * (j + 1) + 1 = h2.length + 2 * j + 1 by omega]
              exact this.2
        · intro j sp₀ hj
          cases j with
          | zero =>
            rw [List.getElem?_cons_zero, Option.some_inj] at hj
            subst hj
            refine ⟨by rw [List.getElem?_cons_zero, hsp2]; norm_num, r0, by simp, ?_, hr0noop⟩
            rw [show h.length + 2 * 0 = h.length by ring]
            exact hr0space
          | succ j =>
            rw [List.getElem?_cons_succ] at hj
            obtain ⟨hsp, r, hr, hrsp, hrnoop⟩ := ihper j sp₀ hj
            refine ⟨?_, r, by rw [List.getElem?_cons_succ]; exact hr, ?_, hrnoop⟩
            · rw [List.getElem?_cons_succ, hsp,
                show h2.length + 2 * j = h.length + 2 * (j + 1) by omega]
            · rw [show h.length + 2 * (j + 1) = h2.length + 2 * j by omega]
              exact hrsp

/-- A successful `AirFlowModel.new` is exactly a successful
`buildUnits` run over the model's spaces. -/
lemma new_ok_buildUnits (model : SimpleModel) (h₀ : SimulationStateHeader)
    (afm : AirFlowModel) (sps : List Space) (h₁ : SimulationStateHeader)
    (hnew : AirFlowModel.new model h₀ = Except.ok (afm, sps, h₁)) :
    buildUnits model.spaces 0 h₀ = Except.ok (afm.infiltration_calcs, sps, h₁) := by
  unfold AirFlowModel.new at hnew
  cases hb : buildUnits model.spaces 0 h₀ with
  | error e => rw [hb] at hnew; exact absurd hnew (by simp [Bind.bind, Except.bind])
  | ok trip =>
    rw [hb] at hnew
    simp only [Bind.bind, Except.bind, Except.ok.injEq, Prod.mk.injEq] at hnew
    obtain ⟨h1, h2, h3⟩ := hnew
    rw [← h1, ← h2, ← h3]

/-- Every unit of a constructed model is either the no-op unit or a
unit whose captured space carries the slot indices registered for its
position; the no-op unit is bound exactly when the space has no
infiltration specification. -/
lemma new_units_spaces (model : SimpleModel) (h₀ : SimulationStateHeader)
    (afm : AirFlowModel) (sps : List Space) (h₁ : SimulationStateHeader)
    (hnew : AirFlowModel.new model h₀ = Except.ok (afm, sps, h₁)) :
    ∀ (jj : ℕ) (r : Resolver), afm.infiltration_calcs[jj]? = some r →
      ∃ sp₀, model.spaces[jj]? = some sp₀ ∧
        (r.space = none ∨ r.space = some (withIndices sp₀ (h₀.length + 2*jj))) ∧
        (sp₀.infiltration = none → r = Resolver.noop) := by
  intro jj r hr
  obtain ⟨hrs, hsps, hlen, hpre, hzero, hper⟩ :=
    buildUnits_ok model.spaces 0 h₀ afm.infiltration_calcs sps h₁
      (new_ok_buildUnits model h₀ afm sps h₁ hnew)
  have hjj : jj < model.spaces.length := by
    have := (List.getElem?_eq_some_iff.mp hr).1
    omega
  obtain ⟨sp₀, hsp₀⟩ : ∃ sp₀, model.spaces[jj]? = some sp₀ :=
    ⟨model.spaces[jj], List.getElem?_eq_getElem hjj⟩
  obtain ⟨hspJ, r', hr', hrsp, hrnoop⟩ := hper jj sp₀ hsp₀
  rw [hr, Option.some_inj] at hr'
  subst hr'
  exact ⟨sp₀, hsp₀, hrsp, hrnoop⟩

/-! ## C7 -/

/-- C7: a space with no configured infiltration specification gets the
no-op unit; its infiltration-volume and infiltration-temperature slots
are registered with initial value zero, and after any number of
`march` invocations (with arbitrary dates and weather sources) both
slots still hold zero. -/
theorem unconfigured_space_slots_stay_zero
    (model : SimpleModel) (h₀ : SimulationStateHeader)
    (afm : AirFlowModel) (sps : List Space) (h₁ : SimulationStateHeader)
    (hnew : AirFlowModel.new model h₀ = Except.ok (afm, sps, h₁))
    (j : ℕ) (sp₀ : Space) (hj : model.spaces[j]? = some sp₀)
    (hinf : sp₀.infiltration = none)
    (spj : Space) (hspj : sps[j]? = some spj)
    (steps : List (Date × Weather)) :
    spj.infiltration_volume h₁.take_values = some 0 ∧
    spj.infiltration_temperature h₁.take_values = some 0 ∧
    spj.infiltration_volume (marches afm steps h₁.take_values) = some 0 ∧
    spj.infiltration_temperature (marches afm steps h₁.take_values) = some 0 := by
  obtain ⟨hrs, hsps, hlen, hpre, hzero, hper⟩ :=
    buildUnits_ok model.spaces 0 h₀ afm.infiltration_calcs sps h₁
      (new_ok_buildUnits model h₀ afm sps h₁ hnew)
  have hj' : j < model.spaces.length := (List.getElem?_eq_some_iff.mp hj).1
  obtain ⟨hspJ, rj, hrj, hrjsp, hrjnoop⟩ := hper j sp₀ hj
  rw [hspj, Option.some_inj] at hspJ
  have hvolIx : spj.infiltration_volume_index = some (h₀.length + 2*j) := by
    rw [hspJ]; rfl
  have htmpIx : spj.infiltration_temperature_index = some (h₀.length + 2*j + 1) := by
    rw [hspJ]; rfl
  obtain ⟨hz1, hz2⟩ := hzero j hj'
  have hv0 : h₁.take_values[h₀.length + 2*j]? = some 0 := by
    rw [SimulationStateHeader.take_values, List.getElem?_map, hz1]
  have ht0 : h₁.take_values[h₀.length + 2*j + 1]? = some 0 := by
    rw [SimulationStateHeader.take_values, List.getElem?_map, hz2]
  have hframe : ∀ (st : SimulationState) (k : ℕ),
      (k = h₀.length + 2*j ∨ k = h₀.length + 2*j + 1) →
      ∀ steps2 : List (Date × Weather), (marches afm steps2 st)[k]? = st[k]? := by
    intro st k hk steps2
    induction steps2 generalizing st with
    | nil => rfl
    | cons dw rest ih =>
      obtain ⟨d, w⟩ := dw
      have hstep : ((afm.march d w st).1)[k]? = st[k]? := by
        apply runUnits_frame
        intro r hrmem sp hrsp
        obtain ⟨jj, hjj⟩ := List.mem_iff_getElem?.mp hrmem
        obtain ⟨sp₀2, hsp₀2, hrsp2, hrnoop2⟩ :=
          new_units_spaces model h₀ afm sps h₁ hnew jj r hjj
        by_cases hjeq : jj = j
        · subst hjeq
          rw [hsp₀2, Option.some_inj] at hj
          subst hj
          rw [hrnoop2 hinf] at hrsp
          cases hrsp
        · rcases hrsp2 with hnone | hsome
          · rw [hrsp] at hnone; cases hnone
          · rw [hrsp, Option.some_inj] at hsome
            subst hsome
            constructor
            · intro he
              have : h₀.length + 2*jj = k := by
                have := congrArg (Option.getD · 0) he
                simpa using this
              omega
            · intro he
              have : h₀.length + 2*jj + 1 = k := by
                have := congrArg (Option.getD · 0) he
                simpa using this
              omega
      rw [marches, ih ((afm.march d w st).1), hstep]
  refine ⟨?_, ?_, ?_, ?_⟩
  · simp only [Space.infiltration_volume, hvolIx]
    exact hv0
  · simp only [Space.infiltration_temperature, htmpIx]
    exact ht0
  · simp only [Space.infiltration_volume, hvolIx]
    rw [hframe h₁.take_values (h₀.length + 2*j) (Or.inl rfl) steps]
    exact hv0
  · simp only [Space.infiltration_temperature, htmpIx]
    rw [hframe h₁.take_values (h₀.length + 2*j + 1) (Or.inr rfl) steps]
    exact ht0

/-- Witness for C7: the lone unconfigured space of `mEmptyDemo` keeps
zero in both output slots across a march step. -/
theorem unconfigured_space_slots_stay_zero_witness :
    spEmptyDemoIx.infiltration_volume h1Demo.take_values = some 0 ∧
    spEmptyDemoIx.infiltration_temperature h1Demo.take_values = some 0 ∧
    spEmptyDemoIx.infiltration_volume
      (marches ⟨[Resolver.noop]⟩ [(dateDemo, fun _ => wSummer)] h1Demo.take_values) = some 0 ∧
    spEmptyDemoIx.infiltration_temperature
      (marches ⟨[Resolver.noop]⟩ [(dateDemo, fun _ => wSummer)] h1Demo.take_values) = some 0 :=
  unconfigured_space_slots_stay_zero mEmptyDemo hDemo ⟨[Resolver.noop]⟩
    [spEmptyDemoIx] h1Demo rfl 0 spEmptyDemo rfl rfl spEmptyDemoIx rfl
    [(dateDemo, fun _ => wSummer)]

/-! ## C8 -/

/-- C8: for a constructed model, (A) each unit writes only its own
space's two registered slots, (B) each unit's fault behaviour and
writes depend on the state only through its own space's dry-bulb slot
(and the shared weather sample), and (C)/(D) a single `march`
invocation leaves every slot that is not one of the registered
volume/temperature slots — in particular every space's dry-bulb
slot — with the value it had before. -/
theorem units_read_write_own_slots
    (model : SimpleModel) (h₀ : SimulationStateHeader)
    (afm : AirFlowModel) (sps : List Space) (h₁ : SimulationStateHeader)
    (hnew : AirFlowModel.new model h₀ = Except.ok (afm, sps, h₁))
    (hdbt : ∀ sp₀ ∈ model.spaces, ∀ d : ℕ,
      sp₀.dry_bulb_temperature_index = some d → d < h₀.length) :
    (∀ (j : ℕ) (r : Resolver), afm.infiltration_calcs[j]? = some r →
      ∀ (w : CurrentWeather) (st : SimulationState) (k : ℕ),
        k ≠ h₀.length + 2*j → k ≠ h₀.length + 2*j + 1 →
        ((runResolver r w st).1)[k]? = st[k]?) ∧
    (∀ (j : ℕ) (r : Resolver), afm.infiltration_calcs[j]? = some r →
      ∀ (w : CurrentWeather) (st₁ st₂ : SimulationState),
        st₁.length = st₂.length →
        (∀ sp, r.space = some sp → ∀ d : ℕ, sp.dry_bulb_temperature_index = some d →
          st₁[d]? = st₂[d]?) →
        (runResolver r w st₁).2 = (runResolver r w st₂).2 ∧
        ∀ k : ℕ, ((runResolver r w st₁).1)[k]? = ((runResolver r w st₂).1)[k]? ∨
          (((runResolver r w st₁).1)[k]? = st₁[k]? ∧
            ((runResolver r w st₂).1)[k]? = st₂[k]?)) ∧
    (∀ (date : Date) (weather : Weather) (st : SimulationState) (k : ℕ),
      (∀ j : ℕ, j < afm.infiltration_calcs.length →
        k ≠ h₀.length + 2*j ∧ k ≠ h₀.length + 2*j + 1) →
      ((afm.march date weather st).1)[k]? = st[k]?) ∧
    (∀ (date : Date) (weather : Weather) (st : SimulationState),
      ∀ sp₀ ∈ model.spaces, ∀ d : ℕ, sp₀.dry_bulb_temperature_index = some d →
        ((afm.march date weather st).1)[d]? = st[d]?) := by
  have hperUnit : ∀ (j : ℕ) (r : Resolver), afm.infiltration_calcs[j]? = some r →
      ∀ sp, r.space = some sp →
        sp.infiltration_volume_index = some (h₀.length + 2*j) ∧
        sp.infiltration_temperature_index = some (h₀.length + 2*j + 1) := by
    intro j r hr sp hsp
    obtain ⟨sp₀, hsp₀, hrsp, _⟩ := new_units_spaces model h₀ afm sps h₁ hnew j r hr
    rcases hrsp with hnone | hsome
    · rw [hsp] at hnone; cases hnone
    · rw [hsp, Option.some_inj] at hsome
      subst hsome
      exact ⟨rfl, rfl⟩
  have hmarchFrame : ∀ (date : Date) (weather : Weather) (st : SimulationState) (k : ℕ),
      (∀ j : ℕ, j < afm.infiltration_calcs.length →
        k ≠ h₀.length + 2*j ∧ k ≠ h₀.length + 2*j + 1) →
      ((afm.march date weather st).1)[k]? = st[k]? := by
    intro date weather st k hk
    apply runUnits_frame
    intro r hrmem sp hsp
    obtain ⟨jj, hjj⟩ := List.mem_iff_getElem?.mp hrmem
    obtain ⟨hvol, htmp⟩ := hperUnit jj r hjj sp hsp
    have hjlt : jj < afm.infiltration_calcs.length := (List.getElem?_eq_some_iff.mp hjj).1
    obtain ⟨hk1, hk2⟩ := hk jj hjlt
    constructor
    · rw [hvol]
      exact fun he => hk1 (Option.some_inj.mp he).symm
    · rw [htmp]
      exact fun he => hk2 (Option.some_inj.mp he).symm
  refine ⟨?_, ?_, hmarchFrame, ?_⟩
  · intro j r hr w st k hk1 hk2
    apply runResolver_frame
    intro sp hsp
    obtain ⟨hvol, htmp⟩ := hperUnit j r hr sp hsp
    constructor
    · rw [hvol]
      exact fun he => hk1 (Option.some_inj.mp he).symm
    · rw [htmp]
      exact fun he => hk2 (Option.some_inj.mp he).symm
  · intro j r hr w st₁ st₂ hlen hdb
    exact runResolver_reads r w st₁ st₂ hlen hdb
  · intro date weather st sp₀ hmem d hd
    apply hmarchFrame
    intro j hj
    have hdlt : d < h₀.length := hdbt sp₀ hmem d hd
    omega

/-- Witness for C8: in the one-space Blast model, a march step does not
change the pre-registered dry-bulb slot 0. -/
theorem units_read_write_own_slots_witness :
    ((afmBlastDemo.march dateDemo (fun _ => wSummer) h1Demo.take_values).1)[0]? =
      h1Demo.take_values[0]? :=
  (units_read_write_own_slots mBlastDemo hDemo afmBlastDemo [spBlastDemoIx] h1Demo rfl
      (by
        intro sp₀ hmem d hd
        have hsp : sp₀ = spBlastDemo := by simpa [mBlastDemo] using hmem
        subst hsp
        have hd0 : (0 : ℕ) = d := Option.some_inj.mp hd
        have hl : hDemo.length = 1 := rfl
        omega)).2.2.1
    dateDemo (fun _ => wSummer) h1Demo.take_values 0
    (by
      intro j hj
      have hl : hDemo.length = 1 := rfl
      constructor
      · rw [hl]; omega
      · rw [hl]; omega)

/-! ## C9 -/

/-- C9: for a constructed model whose spaces read their dry-bulb
temperature from slots registered before construction, marching twice
with the same date and weather source leaves every slot — in particular
every infiltration volume and temperature slot — with the same value
after the second invocation as after the first. -/
theorem march_idempotent
    (model : SimpleModel) (h₀ : SimulationStateHeader)
    (afm : AirFlowModel) (sps : List Space) (h₁ : SimulationStateHeader)
    (hnew : AirFlowModel.new model h₀ = Except.ok (afm, sps, h₁))
    (hdbt : ∀ sp₀ ∈ model.spaces, ∀ d : ℕ,
      sp₀.dry_bulb_temperature_index = some d → d < h₀.length)
    (date : Date) (weather : Weather) (st : SimulationState) :
    ∀ k : ℕ, ((afm.march date weather ((afm.march date weather st).1)).1)[k]? =
      ((afm.march date weather st).1)[k]? := by
  intro k
  have hsep : ∀ r ∈ afm.infiltration_calcs, ∀ sp, r.space = some sp →
      (∀ b : ℕ, sp.infiltration_volume_index = some b → h₀.length ≤ b) ∧
      (∀ b : ℕ, sp.infiltration_temperature_index = some b → h₀.length ≤ b) ∧
      (∀ d : ℕ, sp.dry_bulb_temperature_index = some d → d < h₀.length) := by
    intro r hrmem sp hsp
    obtain ⟨jj, hjj⟩ := List.mem_iff_getElem?.mp hrmem
    obtain ⟨sp₀, hsp₀, hrsp, _⟩ := new_units_spaces model h₀ afm sps h₁ hnew jj r hjj
    rcases hrsp with hnone | hsome
    · rw [hsp] at hnone; cases hnone
    · rw [hsp, Option.some_inj] at hsome
      subst hsome
      refine ⟨?_, ?_, ?_⟩
      · intro b hb
        have : h₀.length + 2*jj = b := Option.some_inj.mp hb
        omega
      · intro b hb
        have : h₀.length + 2*jj + 1 = b := Option.some_inj.mp hb
        omega
      · intro d hd
        exact hdbt sp₀ (List.mem_iff_getElem?.mpr ⟨jj, hsp₀⟩) d hd
  have hst1len : ((runUnits afm.infiltration_calcs (weather date) st).1).length = st.length :=
    runUnits_length afm.infiltration_calcs (weather date) st
  have hlow : ∀ k2 : ℕ, k2 < h₀.length →
      ((runUnits afm.infiltration_calcs (weather date) st).1)[k2]? = st[k2]? := by
    intro k2 hk2
    apply runUnits_frame
    intro r hrmem sp hsp
    obtain ⟨hv, ht, _⟩ := hsep r hrmem sp hsp
    constructor
    · intro he
      have := hv k2 he
      omega
    · intro he
      have := ht k2 he
      omega
  obtain ⟨hfault, hor⟩ := runUnits_reads afm.infiltration_calcs h₀.length (weather date)
    ((runUnits afm.infiltration_calcs (weather date) st).1) st hsep hst1len hlow
  rcases hor k with h | h
  · exact h
  · exact h.1

/-- Witness for C9: in the one-space Blast model, the volume slot holds
the same value after a second identical march. -/
theorem march_idempotent_witness :
    ((afmBlastDemo.march dateDemo (fun _ => wSummer)
        ((afmBlastDemo.march dateDemo (fun _ => wSummer) h1Demo.take_values).1)).1)[1]? =
      ((afmBlastDemo.march dateDemo (fun _ => wSummer) h1Demo.take_values).1)[1]? :=
  march_idempotent mBlastDemo hDemo afmBlastDemo [spBlastDemoIx] h1Demo rfl
    (by
      intro sp₀ hmem d hd
      have hsp : sp₀ = spBlastDemo := by simpa [mBlastDemo] using hmem
      subst hsp
      have hd0 : (0 : ℕ) = d := Option.some_inj.mp hd
      have hl : hDemo.length = 1 := rfl
      omega)
    dateDemo (fun _ => wSummer) h1Demo.take_values 1

/-! ## C10 -/

/-- C10: every non-no-op unit writes the outdoor dry-bulb temperature
into its space's infiltration-temperature slot before computing the
flow; in particular, on a weather sample with a temperature but no wind
speed, a Blast, Doe2 or DesignFlowRate unit faults on the missing wind
speed with the temperature slot already updated — the faulting step is
not atomic. -/
theorem faulting_unit_writes_temperature_first
    (sp : Space) (t : ℕ) (ht : sp.infiltration_temperature_index = some t)
    (st : SimulationState) (hlt : t < st.length)
    (w : CurrentWeather) (T : ℝ) (hw : w.dry_bulb_temperature = some T)
    (hvol : sp.infiltration_volume_index ≠ some t) :
    (∀ r : Resolver, r.space = some sp → ((runResolver r w st).1)[t]? = some T) ∧
    (w.wind_speed = none →
      (∃ tv, sp.dry_bulb_temperature (st.set t T) = some tv) →
      ∀ r : Resolver,
        ((∃ v, r = Resolver.blast sp v) ∨ (∃ v, r = Resolver.doe2 sp v) ∨
          (∃ a b c d v, r = Resolver.designFlowRate sp a b c d v)) →
        runResolver r w st = (st.set t T, some "Weather does not have Wind Speed")) := by
  have hsetT : sp.set_infiltration_temperature st T = st.set t T := by
    simp [Space.set_infiltration_temperature, ht]
  have hTat : (st.set t T)[t]? = some T := List.getElem?_set_eq_of_lt T hlt
  have hvolT : ∀ (s : SimulationState) (v : ℝ), (sp.set_infiltration_volume s v)[t]? = s[t]? :=
    fun s v => set_vol_getElem_ne sp s v t hvol
  constructor
  · intro r hsp
    cases r with
    | noop => simp [Resolver.space] at hsp
    | constant sp2 v =>
      simp only [Resolver.space, Option.some_inj] at hsp
      subst hsp
      simp [runResolver, hw, hsetT, hvolT, hTat]
    | blast sp2 v =>
      simp only [Resolver.space, Option.some_inj] at hsp
      subst hsp
      cases hres : blast_design_flow_rate w sp2 (st.set t T) v <;>
        simp [runResolver, hw, hsetT, hres, hvolT, hTat]
    | doe2 sp2 v =>
      simp only [Resolver.space, Option.some_inj] at hsp
      subst hsp
      cases hres : doe2_design_flow_rate w sp2 (st.set t T) v <;>
        simp [runResolver, hw, hsetT, hres, hvolT, hTat]
    | designFlowRate sp2 a b c d v =>
      simp only [Resolver.space, Option.some_inj] at hsp
      subst hsp
      cases hres : design_flow_rate w sp2 (st.set t T) a b c d v <;>
        simp [runResolver, hw, hsetT, hres, hvolT, hTat]
    | effectiveAirLeakage sp2 al cw cs =>
      simp only [Resolver.space, Option.some_inj] at hsp
      subst hsp
      cases hres : effective_leakage_area w sp2 (st.set t T) al cw cs <;>
        simp [runResolver, hw, hsetT, hres, hvolT, hTat]
  · intro hnw htv r hr
    obtain ⟨tv, htv⟩ := htv
    have hflow : ∀ dr a b c d : ℝ, design_flow_rate w sp (st.set t T) dr a b c d =
        Except.error "Weather does not have Wind Speed" := by
      intro dr a b c d
      simp [design_flow_rate, htv, hw, hnw, Bind.bind, Except.bind]
    rcases hr with ⟨v, rfl⟩ | ⟨v, rfl⟩ | ⟨a, b, c, d, v, rfl⟩
    · simp [runResolver, hw, hsetT, blast_design_flow_rate, hflow]
    · simp [runResolver, hw, hsetT, doe2_design_flow_rate, hflow]
    · simp [runResolver, hw, hsetT, hflow]

/-- Witness for C10: the Blast unit of the demo space, on weather with
temperature 2 and no wind, leaves the fault and the already-written
temperature slot. -/
theorem faulting_unit_writes_temperature_first_witness :
    runResolver (Resolver.blast spBlastDemoIx 1) wNoWind [22, 0, 0] =
      (([22, 0, 0] : SimulationState).set 2 2, some "Weather does not have Wind Speed") ∧
    ((runResolver (Resolver.blast spBlastDemoIx 1) wNoWind [22, 0, 0]).1)[2]? = some 2 :=
  ⟨(faulting_unit_writes_temperature_first spBlastDemoIx 2 rfl [22, 0, 0] (by norm_num)
        wNoWind 2 rfl (by simp [spBlastDemoIx])).2 rfl ⟨22, rfl⟩
      (Resolver.blast spBlastDemoIx 1) (Or.inl ⟨1, rfl⟩),
    (faulting_unit_writes_temperature_first spBlastDemoIx 2 rfl [22, 0, 0] (by norm_num)
        wNoWind 2 rfl (by simp [spBlastDemoIx])).1
      (Resolver.blast spBlastDemoIx 1) rfl⟩

end

end Air
